import Mathlib

/-!
# Verification of the space_play orbital simulation core

Shallow embedding of the physics/state simulation of the `space_play`
repository (`src/physics.js`, `src/game.js`) over the real numbers, together
with theorems settling the specification claims about it.

Conventions:
* JS numbers are modelled as real numbers (`ℝ`), `Math.sqrt` as `Real.sqrt`,
  `Math.atan2` as an explicit case split on `Real.arctan`.
* Mutation is modelled by explicit state passing; the in-place `integrate`
  of `physics.js` becomes a function returning the updated quadruple
  `(x, y, vx, vy)`.
* Bounded `while` loops become fuel/well-founded recursion mirroring the
  loop condition.
-/

open Real

noncomputable section

/-- `gravitationalForce` from `src/physics.js` (lines 62–75): acceleration on
body B at `(b_x, b_y)` toward body A at `(a_x, a_y)` of mass `massA`, with the
hard-coded singularity guard `dist < 1 → (0,0)`. -/
def gravitationalForce (g a_x a_y massA b_x b_y : ℝ) : ℝ × ℝ :=
  let dx := a_x - b_x
  let dy := a_y - b_y
  let distSq := dx * dx + dy * dy
  let dist := Real.sqrt distSq
  if dist < 1 then (0, 0)
  else
    let forceMag := g * massA / distSq
    (forceMag * (dx / dist), forceMag * (dy / dist))

/-- `integrate` from `src/physics.js` (lines 80–85): semi-implicit Euler.
The JS function mutates `{x, y, vx, vy}` in place; here it returns the
updated quadruple `(x, y, vx, vy)`.  Velocity is updated first and the new
velocity is used for the position update, exactly as in the source. -/
def integrate (x y vx vy a_x a_y dt : ℝ) : ℝ × ℝ × ℝ × ℝ :=
  let vx2 := vx + a_x * dt
  let vy2 := vy + a_y * dt
  (x + vx2 * dt, y + vy2 * dt, vx2, vy2)

/-- `checkCollision` from `src/physics.js` (lines 90–94). -/
def checkCollision (x1 y1 r1 x2 y2 r2 : ℝ) : Prop :=
  Real.sqrt ((x1 - x2) * (x1 - x2) + (y1 - y2) * (y1 - y2)) < r1 + r2

/-- JS `Math.atan2 y x` (used at `src/game.js` line 610 for the touchdown
angle), expressed through `Real.arctan` with the standard quadrant fix-up. -/
def atan2 (y x : ℝ) : ℝ :=
  if 0 < x then Real.arctan (y / x)
  else if x < 0 then
    (if 0 ≤ y then Real.arctan (y / x) + π else Real.arctan (y / x) - π)
  else
    (if 0 < y then π / 2 else if y < 0 then -(π / 2) else 0)

/-- A planet's dynamic state, from the `planets` array built in
`src/game.js` (lines 138–165).  Render-only fields (mesh, label, color,
name) are omitted; they never feed back into the simulation. -/
structure Planet where
  idx : ℕ
  mass : ℝ
  radius : ℝ
  collisionRadius : ℝ
  x : ℝ
  y : ℝ
  vx : ℝ
  vy : ℝ

/-- The rocket state record of `src/game.js` (lines 240–251). -/
structure Rocket where
  x : ℝ
  y : ℝ
  vx : ℝ
  vy : ℝ
  angle : ℝ
  thrusting : Bool
  alive : Bool
  landed : Bool
  landedAngle : ℝ
  landedPlanetIdx : ℕ

/-- One planet entry of a level's `PLANETS` list (`src/physics.js` presets).
`initialVelocity` and `collisionRadius` are optional exactly as in
`src/game.js` lines 156–160 (`p.initialVelocity ?? …`, `p.collisionRadius ??
p.radius`). -/
structure PlanetSpec where
  mass : ℝ
  radius : ℝ
  orbitalRadius : ℝ
  initialVelocity : Option ℝ
  collisionRadius : Option ℝ

/-- The level configuration fields consumed by the simulation core
(`src/game.js` reads them off the chosen `LEVELS` entry `L`). -/
structure Config where
  G : ℝ
  SUN_MASS : ℝ
  ROCKET_MASS : ℝ
  ROCKET_THRUST : ℝ
  ROCKET_ROTATION_SPEED : ℝ
  LANDING_SPEED : ℝ
  SUN_COLLISION_RADIUS : ℝ
  ROCKET_SIZE : ℝ
  ROCKET_PLANET_ORBIT_RADIUS : ℝ
  PLANETS : List PlanetSpec

/-- Placeholder planet used as the default of a list lookup.  In the JS
source an out-of-range index would produce `undefined` and crash; the
simulation only ever looks up indices of planets it has recorded, and the
`?? homePlanet` fallback in `src/game.js` line 559 is modelled by a second
`getD` below. -/
def dfltPlanet : Planet :=
  { idx := 0, mass := 0, radius := 0, collisionRadius := 0
    x := 0, y := 0, vx := 0, vy := 0 }

/-- The whole mutable simulation state advanced by one fixed step. -/
structure SimState where
  planets : List Planet
  rocket : Rocket

/-- `FIXED_DT` from `src/game.js` line 488. -/
def FIXED_DT : ℝ := 1 / 120

/-- Construction of one planet's initial state (`src/game.js` lines 150–163):
start on the +X axis at the orbital radius with the configured (or derived
circular-orbit) tangential velocity. -/
def initPlanet (cfg : Config) (i : ℕ) (p : PlanetSpec) : Planet :=
  { idx := i
    mass := p.mass
    radius := p.radius
    collisionRadius := p.collisionRadius.getD p.radius
    x := p.orbitalRadius
    y := 0
    vx := 0
    vy := p.initialVelocity.getD (Real.sqrt (cfg.G * cfg.SUN_MASS / p.orbitalRadius)) }

/-- Initial simulation state built by `startGame` (`src/game.js` lines
138–166 and 239–251): planets from the level's specs, rocket inserted in a
circular orbit of radius `ROCKET_PLANET_ORBIT_RADIUS` around the home
(first) planet. -/
def initState (cfg : Config) : SimState :=
  let planets := cfg.PLANETS.mapIdx (fun i p => initPlanet cfg i p)
  let homePlanet := planets.getD 0 dfltPlanet
  let orbitV := Real.sqrt (cfg.G * homePlanet.mass / cfg.ROCKET_PLANET_ORBIT_RADIUS)
  { planets := planets
    rocket :=
      { x := homePlanet.x + cfg.ROCKET_PLANET_ORBIT_RADIUS
        y := homePlanet.y
        vx := homePlanet.vx
        vy := homePlanet.vy + orbitV
        angle := π / 2
        thrusting := false
        alive := true
        landed := false
        landedAngle := 0
        landedPlanetIdx := 0 } }

/-- Planet physics of one fixed step (`src/game.js` lines 552–555): sun
gravity only, then one Euler step.  Each planet's update reads only its own
pre-step state and the fixed sun, so the in-place array mutation of the
source is faithfully a `map`. -/
def planetStep (cfg : Config) (p : Planet) : Planet :=
  let pg := gravitationalForce cfg.G 0 0 cfg.SUN_MASS p.x p.y
  let q := integrate p.x p.y p.vx p.vy pg.1 pg.2 FIXED_DT
  { p with x := q.1, y := q.2.1, vx := q.2.2.1, vy := q.2.2.2 }

/-- Net gravitational acceleration on the rocket at `(x, y)` (`src/game.js`
lines 574–581): sun contribution plus the fold over the given planet list. -/
def rocketGravity (cfg : Config) (pls : List Planet) (x y : ℝ) : ℝ × ℝ :=
  let sg := gravitationalForce cfg.G 0 0 cfg.SUN_MASS x y
  pls.foldl
    (fun a pl =>
      let pg := gravitationalForce cfg.G pl.x pl.y pl.mass x y
      (a.1 + pg.1, a.2 + pg.2))
    sg

/-- Gravity, optional thrust, and integration for a flying rocket
(`src/game.js` lines 573–589), up to but not including the collision checks.
`forward` is the thrust input (`keys.forward`). -/
def rocketIntegrated (cfg : Config) (forward : Bool) (pls : List Planet) (r : Rocket) : Rocket :=
  let g0 := rocketGravity cfg pls r.x r.y
  let a :=
    if forward then
      (g0.1 + Real.cos r.angle * cfg.ROCKET_THRUST / cfg.ROCKET_MASS,
       g0.2 + Real.sin r.angle * cfg.ROCKET_THRUST / cfg.ROCKET_MASS)
    else g0
  let q := integrate r.x r.y r.vx r.vy a.1 a.2 FIXED_DT
  { r with thrusting := forward, x := q.1, y := q.2.1, vx := q.2.2.1, vy := q.2.2.2 }

open Classical in
/-- The always-fatal sun collision check (`src/game.js` lines 592–595). -/
def sunChecked (cfg : Config) (r : Rocket) : Rocket :=
  if checkCollision r.x r.y (cfg.ROCKET_SIZE * 0.5) 0 0 cfg.SUN_COLLISION_RADIUS then
    { r with alive := false }
  else r

/-- Relative speed between the rocket and a planet (`src/game.js` lines
602–604). -/
def relSpeed (r : Rocket) (pl : Planet) : ℝ :=
  Real.sqrt ((r.vx - pl.vx) * (r.vx - pl.vx) + (r.vy - pl.vy) * (r.vy - pl.vy))

open Classical in
/-- Body of the planet-collision loop (`src/game.js` lines 598–618).  The
`break` on a dead rocket is modelled by the identity in that case: once
`alive` is false every remaining iteration leaves the state unchanged,
which is extensionally the `break`. -/
def handlePlanet (cfg : Config) (r : Rocket) (pl : Planet) : Rocket :=
  if r.alive = false then r
  else if ¬ checkCollision r.x r.y (cfg.ROCKET_SIZE * 0.5) pl.x pl.y pl.collisionRadius then r
  else if relSpeed r pl < cfg.LANDING_SPEED then
    { r with landed := true
             landedPlanetIdx := pl.idx
             landedAngle := atan2 (r.y - pl.y) (r.x - pl.x)
             vx := pl.vx
             vy := pl.vy }
  else
    { r with alive := false }

/-- The whole flying branch of a fixed step (`src/game.js` lines 573–618):
integrate under gravity/thrust computed from the supplied planet list, then
the sun check, then the planet-collision loop over the same list. -/
def flyingStep (cfg : Config) (forward : Bool) (pls : List Planet) (r : Rocket) : Rocket :=
  pls.foldl (handlePlanet cfg) (sunChecked cfg (rocketIntegrated cfg forward pls r))

/-- The landed branch of a fixed step (`src/game.js` lines 558–572): stick
to the landed planet's surface, inherit its velocity, and take off if
thrusting. -/
def landedStep (cfg : Config) (forward : Bool) (pls : List Planet) (r : Rocket) : Rocket :=
  let landedOn := pls.getD r.landedPlanetIdx (pls.getD 0 dfltPlanet)
  let r1 :=
    { r with
      x := landedOn.x + Real.cos r.landedAngle * (landedOn.radius + cfg.ROCKET_SIZE * 0.5)
      y := landedOn.y + Real.sin r.landedAngle * (landedOn.radius + cfg.ROCKET_SIZE * 0.5)
      vx := landedOn.vx
      vy := landedOn.vy
      thrusting := forward }
  if forward then
    { r1 with
      landed := false
      vx := r1.vx + Real.cos r.angle * cfg.ROCKET_THRUST / cfg.ROCKET_MASS * FIXED_DT
      vy := r1.vy + Real.sin r.angle * cfg.ROCKET_THRUST / cfg.ROCKET_MASS * FIXED_DT }
  else r1

/-- One fixed simulation step, the body of the `while` loop in `animate`
(`src/game.js` lines 540–620): all planets are integrated first, and the
rocket branch then consumes the already-advanced planet list, exactly as in
the source (the rocket's gravity loop at lines 577–581 reads the mutated
`planets` array). -/
def fixedStep (cfg : Config) (forward : Bool) (s : SimState) : SimState :=
  let pls := s.planets.map (planetStep cfg)
  let r := s.rocket
  if r.alive = true ∧ r.landed = true then
    { planets := pls, rocket := landedStep cfg forward pls r }
  else if r.alive = true then
    { planets := pls, rocket := flyingStep cfg forward pls r }
  else
    { planets := pls, rocket := r }

end

-- ============================================================
-- Basic evaluation lemmas
-- ============================================================

/-- With a zero gravitational constant every gravity contribution vanishes,
whichever branch of the singularity guard is taken. -/
theorem gravitationalForce_zero_G (a_x a_y massA b_x b_y : ℝ) :
    gravitationalForce 0 a_x a_y massA b_x b_y = (0, 0) := by
  unfold gravitationalForce
  dsimp only
  split
  · rfl
  · simp

/-- With a zero source mass every gravity contribution vanishes. -/
theorem gravitationalForce_zero_mass (g a_x a_y b_x b_y : ℝ) :
    gravitationalForce g a_x a_y 0 b_x b_y = (0, 0) := by
  unfold gravitationalForce
  dsimp only
  split
  · rfl
  · simp

/-- Euler integration under zero acceleration just advances the position. -/
theorem integrate_zero_accel (x y vx vy dt : ℝ) :
    integrate x y vx vy 0 0 dt = (x + vx * dt, y + vy * dt, vx, vy) := by
  simp [integrate]

/-- Deciding `checkCollision` once the distance has been recognised as the
square of a non-negative number. -/
theorem checkCollision_iff (x1 y1 r1 x2 y2 r2 s : ℝ) (hs : 0 ≤ s)
    (h : (x1 - x2) * (x1 - x2) + (y1 - y2) * (y1 - y2) = s * s) :
    (checkCollision x1 y1 r1 x2 y2 r2 ↔ s < r1 + r2) := by
  unfold checkCollision
  rw [h, Real.sqrt_mul_self hs]

/-- Evaluating `relSpeed` once the squared relative speed has been
recognised as the square of a non-negative number. -/
theorem relSpeed_eval (r : Rocket) (pl : Planet) (s : ℝ) (hs : 0 ≤ s)
    (h : (r.vx - pl.vx) * (r.vx - pl.vx) + (r.vy - pl.vy) * (r.vy - pl.vy) = s * s) :
    relSpeed r pl = s := by
  unfold relSpeed
  rw [h, Real.sqrt_mul_self hs]

/-- `atan2` on the positive x-axis. -/
theorem atan2_zero_pos (x : ℝ) (hx : 0 < x) : atan2 0 x = 0 := by
  unfold atan2
  rw [if_pos hx]
  simp

/-- `atan2` on the negative x-axis (JS `Math.atan2(0, x) = π` for `x < 0`). -/
theorem atan2_zero_neg (x : ℝ) (hx : x < 0) : atan2 0 x = π := by
  unfold atan2
  rw [if_neg (by linarith), if_pos hx, if_pos le_rfl]
  simp


-- ============================================================
-- Gravitational force characterisation (C7)
-- ============================================================

/-- Squared distance between two points, the `distSq` of
`gravitationalForce`. -/
def dist2 (a_x a_y b_x b_y : ℝ) : ℝ :=
  (a_x - b_x) * (a_x - b_x) + (a_y - b_y) * (a_y - b_y)

/-- Closed form of `gravitationalForce` outside the singularity guard. -/
theorem gravitationalForce_eq_of_ge (g a_x a_y m b_x b_y : ℝ)
    (hge : 1 ≤ Real.sqrt (dist2 a_x a_y b_x b_y)) :
    gravitationalForce g a_x a_y m b_x b_y =
      (g * m / dist2 a_x a_y b_x b_y *
        ((a_x - b_x) / Real.sqrt (dist2 a_x a_y b_x b_y)),
       g * m / dist2 a_x a_y b_x b_y *
        ((a_y - b_y) / Real.sqrt (dist2 a_x a_y b_x b_y))) := by
  unfold dist2 at hge
  unfold gravitationalForce dist2
  dsimp only
  rw [if_neg (not_lt.mpr hge)]

/-- C7: below the hard-coded minimum distance 1 the force is exactly
`(0, 0)`; at or above it, the result is the vector of magnitude
`G·massA/dist²` along the unit vector from the target `(b_x, b_y)` toward
the source `(a_x, a_y)`, and each component is bounded in absolute value by
`G·massA`, so the guard indeed prevents any unbounded value. -/
theorem gravitationalForce_spec (g a_x a_y m b_x b_y : ℝ) (hg : 0 ≤ g) (hm : 0 ≤ m) :
    (Real.sqrt (dist2 a_x a_y b_x b_y) < 1 →
      gravitationalForce g a_x a_y m b_x b_y = (0, 0)) ∧
    (1 ≤ Real.sqrt (dist2 a_x a_y b_x b_y) →
      gravitationalForce g a_x a_y m b_x b_y =
        (g * m /
            (Real.sqrt (dist2 a_x a_y b_x b_y) * Real.sqrt (dist2 a_x a_y b_x b_y)) *
          ((a_x - b_x) / Real.sqrt (dist2 a_x a_y b_x b_y)),
         g * m /
            (Real.sqrt (dist2 a_x a_y b_x b_y) * Real.sqrt (dist2 a_x a_y b_x b_y)) *
          ((a_y - b_y) / Real.sqrt (dist2 a_x a_y b_x b_y))) ∧
      Real.sqrt
          ((gravitationalForce g a_x a_y m b_x b_y).1 *
              (gravitationalForce g a_x a_y m b_x b_y).1 +
            (gravitationalForce g a_x a_y m b_x b_y).2 *
              (gravitationalForce g a_x a_y m b_x b_y).2) =
        g * m /
          (Real.sqrt (dist2 a_x a_y b_x b_y) * Real.sqrt (dist2 a_x a_y b_x b_y)) ∧
      |(gravitationalForce g a_x a_y m b_x b_y).1| ≤ g * m ∧
      |(gravitationalForce g a_x a_y m b_x b_y).2| ≤ g * m) := by
  constructor
  · intro hlt
    unfold dist2 at hlt
    unfold gravitationalForce
    dsimp only
    rw [if_pos hlt]
  · intro hge
    have hQ0 : 0 ≤ dist2 a_x a_y b_x b_y :=
      add_nonneg (mul_self_nonneg _) (mul_self_nonneg _)
    have hsq :
        Real.sqrt (dist2 a_x a_y b_x b_y) * Real.sqrt (dist2 a_x a_y b_x b_y) =
          dist2 a_x a_y b_x b_y := Real.mul_self_sqrt hQ0
    have hdpos : 0 < Real.sqrt (dist2 a_x a_y b_x b_y) := lt_of_lt_of_le one_pos hge
    have hQ1 : (1 : ℝ) ≤ dist2 a_x a_y b_x b_y := by nlinarith
    have hQpos : 0 < dist2 a_x a_y b_x b_y := lt_of_lt_of_le one_pos hQ1
    have heq := gravitationalForce_eq_of_ge g a_x a_y m b_x b_y hge
    have hc0 : 0 ≤ g * m / dist2 a_x a_y b_x b_y :=
      div_nonneg (mul_nonneg hg hm) hQ0
    have hcle : g * m / dist2 a_x a_y b_x b_y ≤ g * m :=
      div_le_self (mul_nonneg hg hm) hQ1
    have hdx : |a_x - b_x| ≤ Real.sqrt (dist2 a_x a_y b_x b_y) :=
      Real.abs_le_sqrt (by unfold dist2; nlinarith [mul_self_nonneg (a_y - b_y)])
    have hdy : |a_y - b_y| ≤ Real.sqrt (dist2 a_x a_y b_x b_y) :=
      Real.abs_le_sqrt (by unfold dist2; nlinarith [mul_self_nonneg (a_x - b_x)])
    have hbound : ∀ u : ℝ, |u| ≤ Real.sqrt (dist2 a_x a_y b_x b_y) →
        |g * m / dist2 a_x a_y b_x b_y * (u / Real.sqrt (dist2 a_x a_y b_x b_y))| ≤ g * m := by
      intro u hu
      rw [abs_mul, abs_of_nonneg hc0, abs_div, abs_of_pos hdpos]
      calc g * m / dist2 a_x a_y b_x b_y * (|u| / Real.sqrt (dist2 a_x a_y b_x b_y))
          ≤ g * m / dist2 a_x a_y b_x b_y * 1 := by
            apply mul_le_mul_of_nonneg_left _ hc0
            rw [div_le_one hdpos]
            exact hu
        _ = g * m / dist2 a_x a_y b_x b_y := mul_one _
        _ ≤ g * m := hcle
    refine ⟨?_, ?_, ?_, ?_⟩
    · rw [heq, hsq]
    · rw [heq]
      dsimp only
      have hexp :
          g * m / dist2 a_x a_y b_x b_y * ((a_x - b_x) / Real.sqrt (dist2 a_x a_y b_x b_y)) *
              (g * m / dist2 a_x a_y b_x b_y *
                ((a_x - b_x) / Real.sqrt (dist2 a_x a_y b_x b_y))) +
            g * m / dist2 a_x a_y b_x b_y * ((a_y - b_y) / Real.sqrt (dist2 a_x a_y b_x b_y)) *
              (g * m / dist2 a_x a_y b_x b_y *
                ((a_y - b_y) / Real.sqrt (dist2 a_x a_y b_x b_y))) =
            (g * m / dist2 a_x a_y b_x b_y) * (g * m / dist2 a_x a_y b_x b_y) *
              (((a_x - b_x) * (a_x - b_x) + (a_y - b_y) * (a_y - b_y)) /
                (Real.sqrt (dist2 a_x a_y b_x b_y) * Real.sqrt (dist2 a_x a_y b_x b_y))) := by
        ring
      rw [hexp, hsq]
      have : ((a_x - b_x) * (a_x - b_x) + (a_y - b_y) * (a_y - b_y)) /
          dist2 a_x a_y b_x b_y = 1 := by
        unfold dist2
        exact div_self (by unfold dist2 at hQpos; linarith)
      rw [this, mul_one, Real.sqrt_mul_self hc0]
    · rw [heq]
      exact hbound _ hdx
    · rw [heq]
      exact hbound _ hdy

/-- Witness for `gravitationalForce_spec`: a concrete evaluation at target
`(3, 4)`, source `(0, 0)` with `G = 2`, mass `3` (distance 5). -/
theorem gravitationalForce_spec_witness :
    gravitationalForce 2 0 0 3 3 4 = (-(18 / 125), -(24 / 125)) := by
  have h25 : dist2 0 0 3 4 = 5 * 5 := by unfold dist2; norm_num
  have h5 : Real.sqrt (dist2 0 0 3 4) = 5 := by
    rw [h25, Real.sqrt_mul_self (by norm_num : (0:ℝ) ≤ 5)]
  have h := (gravitationalForce_spec 2 0 0 3 3 4 (by norm_num) (by norm_num)).2
    (by rw [h5]; norm_num)
  rw [h.1, h5]
  norm_num

-- ============================================================
-- Level table and startGame (C10)
-- ============================================================

/-- One entry of the `LEVELS` table of `src/physics.js`, with the derived
values (`PLANET_INITIAL_VELOCITY`, `SUN_COLLISION_RADIUS`,
`PLANET_COLLISION_RADIUS`) already applied as in the module-top loop of
`src/physics.js` lines 48–52. -/
structure LevelPreset where
  name : String
  G : ℝ
  SUN_MASS : ℝ
  PLANET_MASS : ℝ
  ROCKET_MASS : ℝ
  PLANET_ORBITAL_RADIUS : ℝ
  ROCKET_THRUST : ℝ
  ROCKET_ROTATION_SPEED : ℝ
  SUN_RADIUS : ℝ
  PLANET_RADIUS : ℝ
  ROCKET_SIZE : ℝ
  ROCKET_PLANET_ORBIT_RADIUS : ℝ
  FRUSTUM_SIZE : ℝ
  MIN_ZOOM : ℝ
  MAX_ZOOM : ℝ
  STAR_SPREAD : ℝ
  PLANET_INITIAL_VELOCITY : ℝ
  SUN_COLLISION_RADIUS : ℝ
  PLANET_COLLISION_RADIUS : ℝ

noncomputable section

/-- The `tutorial` preset of `src/physics.js`. -/
def tutorialPreset : LevelPreset :=
  { name := "Tutorial"
    G := 500, SUN_MASS := 10000, PLANET_MASS := 10, ROCKET_MASS := 1
    PLANET_ORBITAL_RADIUS := 300, ROCKET_THRUST := 50, ROCKET_ROTATION_SPEED := 3
    SUN_RADIUS := 30, PLANET_RADIUS := 10, ROCKET_SIZE := 6
    ROCKET_PLANET_ORBIT_RADIUS := 40, FRUSTUM_SIZE := 800
    MIN_ZOOM := 0.15, MAX_ZOOM := 3, STAR_SPREAD := 4000
    PLANET_INITIAL_VELOCITY := Real.sqrt (500 * 10000 / 300)
    SUN_COLLISION_RADIUS := 30 * 0.9
    PLANET_COLLISION_RADIUS := 10 * 0.9 }

/-- The `realistic` preset of `src/physics.js`. -/
def realisticPreset : LevelPreset :=
  { name := "Realistic"
    G := 500, SUN_MASS := 100000, PLANET_MASS := 10, ROCKET_MASS := 0.001
    PLANET_ORBITAL_RADIUS := 3000, ROCKET_THRUST := 0.15, ROCKET_ROTATION_SPEED := 3
    SUN_RADIUS := 100, PLANET_RADIUS := 8, ROCKET_SIZE := 3
    ROCKET_PLANET_ORBIT_RADIUS := 30, FRUSTUM_SIZE := 200
    MIN_ZOOM := 0.02, MAX_ZOOM := 5, STAR_SPREAD := 20000
    PLANET_INITIAL_VELOCITY := Real.sqrt (500 * 100000 / 3000)
    SUN_COLLISION_RADIUS := 100 * 0.9
    PLANET_COLLISION_RADIUS := 8 * 0.9 }

/-- The own keys of the `LEVELS` object literal of `src/physics.js`, with
their presets. -/
def LEVELS : List (String × LevelPreset) :=
  [("tutorial", tutorialPreset), ("realistic", realisticPreset)]

end

/-- The property names every JavaScript object literal inherits from
`Object.prototype`: a property read `LEVELS[id]` for one of these ids
returns the inherited function (or, for `__proto__`, accessor) object
rather than `undefined`. -/
def OBJECT_PROTOTYPE_PROPS : List String :=
  ["constructor", "hasOwnProperty", "isPrototypeOf", "propertyIsEnumerable",
   "toLocaleString", "toString", "valueOf", "__proto__", "__defineGetter__",
   "__defineSetter__", "__lookupGetter__", "__lookupSetter__"]

/-- The JavaScript value produced by the property read `LEVELS[levelId]`:
`undefined`, an own-property preset, or a function/accessor object
inherited from `Object.prototype`. -/
inductive JSValue where
  | jsUndefined : JSValue
  | preset : LevelPreset → JSValue
  | protoProperty : String → JSValue

/-- JS truthiness of those values: `undefined` is falsy; preset objects and
the function/accessor objects inherited from `Object.prototype` are
truthy. -/
def truthy : JSValue → Bool
  | .jsUndefined => false
  | .preset _ => true
  | .protoProperty _ => true

noncomputable section

/-- The property read `LEVELS[levelId]` of `src/game.js` line 11: own
properties of the `LEVELS` object literal first, then the prototype chain —
an id such as `"toString"` misses the own keys but hits `Object.prototype`
and yields a truthy function object, not `undefined`. -/
def levelsLookup (levelId : String) : JSValue :=
  match LEVELS.lookup levelId with
  | some L => .preset L
  | none =>
    if levelId ∈ OBJECT_PROTOTYPE_PROPS then .protoProperty levelId else .jsUndefined

/-- `startGame` from `src/game.js` lines 10–12: `const L = LEVELS[levelId];
if (!L) throw new Error(...)`.  The guard fires only when the looked-up
value is falsy (`undefined` here); any truthy value — a preset, but also a
property inherited from `Object.prototype` — passes the guard, and the
`ok` branch carries the value from which the rest of `startGame` builds the
scene and simulation. -/
def startGame (levelId : String) : Except String JSValue :=
  let L := levelsLookup levelId
  if truthy L = false then .error ("Unknown levelId \"" ++ levelId ++ "\"")
  else .ok L

end

/-- C10 fails on the code: `"toString"` is not a key of the `LEVELS` table,
yet `startGame "toString"` throws no error — the property read walks the
prototype chain and yields the truthy `Object.prototype.toString` function,
so the `if (!L)` guard passes and scene/simulation construction proceeds
from a value that is not a defined level preset. -/
theorem startGame_prototype_counterexample :
    startGame "toString" = .ok (JSValue.protoProperty "toString") ∧
    (∀ e : String, startGame "toString" ≠ .error e) ∧
    ("toString" ≠ "tutorial" ∧ "toString" ≠ "realistic") ∧
    (∀ L : LevelPreset, JSValue.protoProperty "toString" ≠ JSValue.preset L) := by
  have e1 : (("toString" : String) == "tutorial") = false := by decide
  have e2 : (("toString" : String) == "realistic") = false := by decide
  have hlook : levelsLookup "toString" = .protoProperty "toString" := by
    unfold levelsLookup LEVELS
    simp [List.lookup, e1, e2]
    decide
  have hok : startGame "toString" = .ok (JSValue.protoProperty "toString") := by
    unfold startGame
    dsimp only
    rw [hlook]
    simp [truthy]
  refine ⟨hok, ?_, ⟨by decide, by decide⟩, ?_⟩
  · intro e h
    rw [hok] at h
    exact Except.noConfusion h
  · intro L h
    exact JSValue.noConfusion h

/-- C10 as amended: for every id that is neither a key of the `LEVELS`
table nor one of the property names inherited from `Object.prototype`, the
property read is `undefined` and `startGame` throws an error naming the
unknown id before constructing any scene or simulation state.  (For
inherited names such as `"toString"` the guard does not fire; see the
counterexample.) -/
theorem startGame_unknown_id (levelId : String)
    (h1 : levelId ≠ "tutorial") (h2 : levelId ≠ "realistic")
    (h3 : levelId ∉ OBJECT_PROTOTYPE_PROPS) :
    startGame levelId = .error ("Unknown levelId \"" ++ levelId ++ "\"") := by
  have e1 : (levelId == "tutorial") = false := beq_eq_false_iff_ne.mpr h1
  have e2 : (levelId == "realistic") = false := beq_eq_false_iff_ne.mpr h2
  have hlook : levelsLookup levelId = .jsUndefined := by
    unfold levelsLookup LEVELS
    simp [List.lookup, e1, e2, h3]
  unfold startGame
  dsimp only
  rw [hlook]
  simp [truthy]

/-- Witness for `startGame_unknown_id` at the concrete id `"foo"`. -/
theorem startGame_unknown_id_witness :
    startGame "foo" = .error "Unknown levelId \"foo\"" := by
  have h := startGame_unknown_id "foo" (by decide) (by decide) (by decide)
  rw [h]
  have : ("Unknown levelId \"" ++ "foo" ++ "\"") = "Unknown levelId \"foo\"" := by decide
  rw [this]

-- ============================================================
-- Fixed-step scheduler (C3)
-- ============================================================

/-- `MAX_STEPS_PER_FRAME` from `src/game.js` line 489. -/
def MAX_STEPS_PER_FRAME : ℕ := 10

/-- The catch-up `while` loop of `animate` (`src/game.js` lines 539–543):
`while (simAccum >= FIXED_DT && steps < MAX_STEPS_PER_FRAME) { steps++;
simAccum -= FIXED_DT; … }`, over exact rationals.  The loop body's physics
does not influence the step count or accumulator, so it is elided here.
The fuel argument only bounds recursion: `steps < MAX_STEPS_PER_FRAME`
allows at most `MAX_STEPS_PER_FRAME` iterations starting from `steps = 0`,
so fuel `MAX_STEPS_PER_FRAME` never runs out before the condition fails. -/
def schedLoop : ℕ → ℚ → ℕ → ℕ × ℚ
  | 0, accum, steps => (steps, accum)
  | fuel + 1, accum, steps =>
    if 1 / 120 ≤ accum ∧ steps < MAX_STEPS_PER_FRAME then
      schedLoop fuel (accum - 1 / 120) (steps + 1)
    else (steps, accum)

/-- The per-frame scheduling of `animate` (`src/game.js` lines 509–510,
535–542 and 621–622): clamp the frame delta to 0.05 s, scale by the time
scale, add to the accumulator, run whole fixed steps up to the cap, and
discard the whole backlog when the cap was hit.  Returns the number of
steps executed and the final accumulator. -/
def frameScheduler (simAccum frameDelta timeScale : ℚ) : ℕ × ℚ :=
  let frameDt := if frameDelta > 1 / 20 then 1 / 20 else frameDelta
  let p := schedLoop MAX_STEPS_PER_FRAME (simAccum + frameDt * timeScale) 0
  (p.1, if p.1 = MAX_STEPS_PER_FRAME then 0 else p.2)

/-- C3 fails on the code: a single 10-second frame delta at time scale 1 is
first clamped to 0.05 s, so the scheduler does not execute 10 steps. -/
theorem scheduler_ten_second_frame_not_ten_steps :
    (frameScheduler 0 10 1).1 ≠ 10 := by
  norm_num [frameScheduler, schedLoop, MAX_STEPS_PER_FRAME]

/-- C3 as amended: the 10-second frame delta is clamped to 0.05 s
(= 6·FIXED_DT), so exactly 6 steps execute and the accumulator ends at 0
(all accumulated time is consumed; the step cap and its discard policy are
not reached). -/
theorem scheduler_ten_second_frame_six_steps :
    frameScheduler 0 10 1 = (6, 0) := by
  norm_num [frameScheduler, schedLoop, MAX_STEPS_PER_FRAME]

/-- The cap-and-discard policy itself, at an input that does reach the cap:
an accumulated backlog worth 12 steps (0.1 s at time scale 1, entering with
an empty accumulator but no clamping since 0.05 ≥ frameDelta is false…);
here we feed the accumulator directly: starting accumulator 0.1 with a zero
frame delta executes the full 10 steps and resets the remainder to 0. -/
theorem scheduler_cap_discards_backlog :
    frameScheduler (1 / 10) 0 1 = (10, 0) ∧ (1 : ℚ) / 10 - 10 * (1 / 120) ≠ 0 := by
  constructor
  · norm_num [frameScheduler, schedLoop, MAX_STEPS_PER_FRAME]
  · norm_num

-- ============================================================
-- Shortest-arc angle interpolation (C9)
-- ============================================================

/-- First `while` loop of `lerpAngle` (`src/game.js` line 500):
`while (d > Math.PI) d -= Math.PI * 2`. -/
noncomputable def wrapDown (d : ℝ) : ℝ :=
  if h : π < d then wrapDown (d - 2 * π) else d
termination_by (⌈(d - π) / (2 * π)⌉).toNat
decreasing_by
  have h2pi : (0 : ℝ) < 2 * π := by positivity
  have hq : ⌈(d - 2 * π - π) / (2 * π)⌉ = ⌈(d - π) / (2 * π)⌉ - 1 := by
    rw [show d - 2 * π - π = (d - π) - 2 * π by ring, sub_div, div_self h2pi.ne']
    exact Int.ceil_sub_one _
  have hpos : 0 < ⌈(d - π) / (2 * π)⌉ :=
    Int.ceil_pos.mpr (div_pos (by linarith) h2pi)
  rw [hq]
  omega

/-- Second `while` loop of `lerpAngle` (`src/game.js` line 501):
`while (d < -Math.PI) d += Math.PI * 2`. -/
noncomputable def wrapUp (d : ℝ) : ℝ :=
  if h : d < -π then wrapUp (d + 2 * π) else d
termination_by (⌈(-π - d) / (2 * π)⌉).toNat
decreasing_by
  have h2pi : (0 : ℝ) < 2 * π := by positivity
  have hq : ⌈(-π - (d + 2 * π)) / (2 * π)⌉ = ⌈(-π - d) / (2 * π)⌉ - 1 := by
    rw [show -π - (d + 2 * π) = (-π - d) - 2 * π by ring, sub_div, div_self h2pi.ne']
    exact Int.ceil_sub_one _
  have hpos : 0 < ⌈(-π - d) / (2 * π)⌉ :=
    Int.ceil_pos.mpr (div_pos (by linarith) h2pi)
  rw [hq]
  omega

/-- `lerpAngle` from `src/game.js` lines 497–503: wrap `b - a` by the two
loops, then blend. -/
noncomputable def lerpAngle (a b t : ℝ) : ℝ :=
  a + wrapUp (wrapDown (b - a)) * t

/-- `wrapDown` on an argument already at most `π` is the identity. -/
theorem wrapDown_of_le {d : ℝ} (h : d ≤ π) : wrapDown d = d := by
  rw [wrapDown, dif_neg (not_lt.mpr h)]

/-- `wrapUp` on an argument already at least `-π` is the identity. -/
theorem wrapUp_of_ge {d : ℝ} (h : -π ≤ d) : wrapUp d = d := by
  rw [wrapUp, dif_neg (not_lt.mpr h)]

theorem wrapDown_spec_aux :
    ∀ (n : ℕ) (d : ℝ), (⌈(d - π) / (2 * π)⌉).toNat ≤ n →
      wrapDown d ≤ π ∧ ∃ k : ℤ, wrapDown d = d - 2 * π * k := by
  intro n
  induction n with
  | zero =>
    intro d hd
    have h2pi : (0 : ℝ) < 2 * π := by positivity
    have hle : d ≤ π := by
      by_contra hgt
      have : 0 < ⌈(d - π) / (2 * π)⌉ :=
        Int.ceil_pos.mpr (div_pos (by linarith [not_le.mp hgt]) h2pi)
      omega
    rw [wrapDown_of_le hle]
    exact ⟨hle, 0, by ring⟩
  | succ n ih =>
    intro d hd
    by_cases h : π < d
    · rw [wrapDown, dif_pos h]
      have h2pi : (0 : ℝ) < 2 * π := by positivity
      have hq : ⌈(d - 2 * π - π) / (2 * π)⌉ = ⌈(d - π) / (2 * π)⌉ - 1 := by
        rw [show d - 2 * π - π = (d - π) - 2 * π by ring, sub_div, div_self h2pi.ne']
        exact Int.ceil_sub_one _
      have hmeas : (⌈(d - 2 * π - π) / (2 * π)⌉).toNat ≤ n := by
        rw [hq]; omega
      obtain ⟨h1, k, hk⟩ := ih (d - 2 * π) hmeas
      exact ⟨h1, k + 1, by rw [hk]; push_cast; ring⟩
    · rw [wrapDown, dif_neg h]
      exact ⟨not_lt.mp h, 0, by ring⟩

/-- The first loop terminates with a value at most `π`, congruent to its
input modulo `2π`. -/
theorem wrapDown_spec (d : ℝ) :
    wrapDown d ≤ π ∧ ∃ k : ℤ, wrapDown d = d - 2 * π * k :=
  wrapDown_spec_aux _ d le_rfl

theorem wrapUp_spec_aux :
    ∀ (n : ℕ) (d : ℝ), (⌈(-π - d) / (2 * π)⌉).toNat ≤ n →
      -π ≤ wrapUp d ∧ (d ≤ π → wrapUp d ≤ π) ∧ ∃ k : ℤ, wrapUp d = d + 2 * π * k := by
  intro n
  induction n with
  | zero =>
    intro d hd
    have h2pi : (0 : ℝ) < 2 * π := by positivity
    have hge : -π ≤ d := by
      by_contra hlt
      have : 0 < ⌈(-π - d) / (2 * π)⌉ :=
        Int.ceil_pos.mpr (div_pos (by linarith [not_le.mp hlt]) h2pi)
      omega
    rw [wrapUp_of_ge hge]
    exact ⟨hge, fun h => h, 0, by ring⟩
  | succ n ih =>
    intro d hd
    by_cases h : d < -π
    · rw [wrapUp, dif_pos h]
      have h2pi : (0 : ℝ) < 2 * π := by positivity
      have hq : ⌈(-π - (d + 2 * π)) / (2 * π)⌉ = ⌈(-π - d) / (2 * π)⌉ - 1 := by
        rw [show -π - (d + 2 * π) = (-π - d) - 2 * π by ring, sub_div, div_self h2pi.ne']
        exact Int.ceil_sub_one _
      have hmeas : (⌈(-π - (d + 2 * π)) / (2 * π)⌉).toNat ≤ n := by
        rw [hq]; omega
      obtain ⟨h1, h2, k, hk⟩ := ih (d + 2 * π) hmeas
      refine ⟨h1, fun _ => h2 (by linarith [pi_pos]), k + 1, by rw [hk]; push_cast; ring⟩
    · rw [wrapUp, dif_neg h]
      exact ⟨not_lt.mp h, fun hle => hle, 0, by ring⟩

/-- The second loop terminates with a value at least `-π`, congruent to its
input modulo `2π`, and does not overshoot `π` when its input was at most
`π`. -/
theorem wrapUp_spec (d : ℝ) :
    -π ≤ wrapUp d ∧ (d ≤ π → wrapUp d ≤ π) ∧ ∃ k : ℤ, wrapUp d = d + 2 * π * k :=
  wrapUp_spec_aux _ d le_rfl

/-- C9 fails on the code at the wrap boundary: for the angle pair
`a = 0, b = -π` (difference exactly `-π`) the code leaves the difference at
`-π`, which is *not* in the half-open interval `(-π, π]` the claim
prescribes; the claimed representative would be `π` and would produce the
interpolant `π/2` at `alpha = 1/2`, while the code produces `-π/2`. -/
theorem lerpAngle_claim_counterexample :
    lerpAngle 0 (-π) (1 / 2) = -(π / 2) ∧
    ∀ d : ℝ, (-π < d ∧ d ≤ π ∧ ∃ k : ℤ, d = (-π - 0) + 2 * π * k) →
      0 + d * (1 / 2) ≠ lerpAngle 0 (-π) (1 / 2) := by
  have hπ : (0 : ℝ) < π := pi_pos
  have hval : lerpAngle 0 (-π) (1 / 2) = -(π / 2) := by
    unfold lerpAngle
    rw [show (-π - 0 : ℝ) = -π by ring]
    rw [wrapDown_of_le (by linarith)]
    rw [wrapUp_of_ge le_rfl]
    ring
  refine ⟨hval, ?_⟩
  rintro d ⟨hd1, hd2, k, hk⟩ heq
  have e1 : -π < -π - 0 + 2 * π * (k : ℝ) := hk ▸ hd1
  have e2 : -π - 0 + 2 * π * (k : ℝ) ≤ π := hk ▸ hd2
  have p1 : (0 : ℝ) < 2 * π * (k : ℝ) := by linarith
  have p2 : 2 * π * (k : ℝ) ≤ 2 * π := by linarith
  have q1 : (0 : ℝ) < (k : ℝ) := by nlinarith
  have q2 : ((k : ℝ)) ≤ 1 := by nlinarith
  have k1 : (0 : ℤ) < k := by exact_mod_cast q1
  have k2 : k ≤ 1 := by exact_mod_cast q2
  have hk1 : k = 1 := by omega
  have hdval : d = π := by rw [hk, hk1]; push_cast; ring
  rw [hdval, hval] at heq
  linarith

/-- C9 as amended: the interpolated angle is `a + alpha·d` where `d` is
`b - a` wrapped into the *closed* interval `[-π, π]` (congruent to `b - a`
modulo `2π`; at an exact `±π` boundary the code may return `-π` where the
claim's half-open convention would give `π`).  `alpha = 0` reproduces the
previous snapshot angle exactly, and the pair `3.1 → -3.1` interpolates
through the short arc: at `alpha = 1/2` it is exactly at `π`. -/
theorem lerpAngle_amended :
    (∀ a b t : ℝ,
      lerpAngle a b t = a + wrapUp (wrapDown (b - a)) * t ∧
      -π ≤ wrapUp (wrapDown (b - a)) ∧ wrapUp (wrapDown (b - a)) ≤ π ∧
      ∃ k : ℤ, wrapUp (wrapDown (b - a)) = (b - a) + 2 * π * k) ∧
    (∀ a b : ℝ, lerpAngle a b 0 = a) ∧
    lerpAngle 3.1 (-3.1) (1 / 2) = π := by
  refine ⟨?_, ?_, ?_⟩
  · intro a b t
    obtain ⟨hw1, k1, hk1⟩ := wrapDown_spec (b - a)
    obtain ⟨hu1, hu2, k2, hk2⟩ := wrapUp_spec (wrapDown (b - a))
    refine ⟨rfl, hu1, hu2 hw1, k2 - k1, ?_⟩
    rw [hk2, hk1]; push_cast; ring
  · intro a b
    unfold lerpAngle
    ring
  · have hπ3 : (3 : ℝ) < π := pi_gt_three
    have hπ315 : π < 3.15 := pi_lt_d2
    unfold lerpAngle
    rw [show (-3.1 - 3.1 : ℝ) = -6.2 by norm_num]
    rw [wrapDown_of_le (by norm_num; linarith)]
    have h1 : wrapUp (-6.2 : ℝ) = wrapUp (-6.2 + 2 * π) := by
      rw [wrapUp, dif_pos (by norm_num; linarith)]
    have h2 : wrapUp (-6.2 + 2 * π) = -6.2 + 2 * π :=
      wrapUp_of_ge (by norm_num; linarith)
    rw [h1, h2]
    ring

-- ============================================================
-- Structural lemmas about one fixed step
-- ============================================================

/-- The rocket as it stands right after gravity/thrust integration in a
step whose rocket was flying: the planet list seen by the gravity loop is
the already-advanced one, as in `animate` (`src/game.js` lines 552–589). -/
noncomputable def postRocket (cfg : Config) (forward : Bool) (s : SimState) : Rocket :=
  rocketIntegrated cfg forward (s.planets.map (planetStep cfg)) s.rocket

/-- The planet-disc overlap test applied to the rocket position `(x, y)`,
as in `src/game.js` line 600. -/
def collidesWith (cfg : Config) (x y : ℝ) (pl : Planet) : Prop :=
  checkCollision x y (cfg.ROCKET_SIZE * 0.5) pl.x pl.y pl.collisionRadius

/-- A fold whose function fixes every intermediate accumulator is the
identity. -/
theorem foldl_fixed {α β : Type} (f : α → β → α) (l : List β) (a : α)
    (h : ∀ x b, b ∈ l → f x b = x) : l.foldl f a = a := by
  induction l generalizing a with
  | nil => rfl
  | cons hd tl ih =>
    rw [List.foldl_cons, h a hd (List.mem_cons_self hd tl)]
    exact ih a (fun x b hb => h x b (List.mem_cons_of_mem hd hb))

theorem rocketIntegrated_alive (cfg : Config) (forward : Bool) (pls : List Planet) (r : Rocket) :
    (rocketIntegrated cfg forward pls r).alive = r.alive := rfl

theorem rocketIntegrated_landed (cfg : Config) (forward : Bool) (pls : List Planet) (r : Rocket) :
    (rocketIntegrated cfg forward pls r).landed = r.landed := rfl

theorem sunChecked_x (cfg : Config) (r : Rocket) : (sunChecked cfg r).x = r.x := by
  unfold sunChecked; split <;> rfl

theorem sunChecked_y (cfg : Config) (r : Rocket) : (sunChecked cfg r).y = r.y := by
  unfold sunChecked; split <;> rfl

theorem sunChecked_landed (cfg : Config) (r : Rocket) : (sunChecked cfg r).landed = r.landed := by
  unfold sunChecked; split <;> rfl

theorem sunChecked_of_collision (cfg : Config) (r : Rocket)
    (h : checkCollision r.x r.y (cfg.ROCKET_SIZE * 0.5) 0 0 cfg.SUN_COLLISION_RADIUS) :
    sunChecked cfg r = { r with alive := false } := by
  unfold sunChecked; rw [if_pos h]

theorem sunChecked_of_no_collision (cfg : Config) (r : Rocket)
    (h : ¬ checkCollision r.x r.y (cfg.ROCKET_SIZE * 0.5) 0 0 cfg.SUN_COLLISION_RADIUS) :
    sunChecked cfg r = r := by
  unfold sunChecked; rw [if_neg h]

theorem handlePlanet_dead (cfg : Config) (r : Rocket) (pl : Planet)
    (h : r.alive = false) : handlePlanet cfg r pl = r := by
  unfold handlePlanet; rw [if_pos h]

theorem handlePlanet_no_collision (cfg : Config) (r : Rocket) (pl : Planet)
    (h : ¬ collidesWith cfg r.x r.y pl) : handlePlanet cfg r pl = r := by
  unfold collidesWith at h
  unfold handlePlanet
  by_cases ha : r.alive = false
  · rw [if_pos ha]
  · rw [if_neg ha, if_pos h]

theorem handlePlanet_land (cfg : Config) (r : Rocket) (pl : Planet)
    (ha : r.alive = true) (hc : collidesWith cfg r.x r.y pl)
    (hs : relSpeed r pl < cfg.LANDING_SPEED) :
    handlePlanet cfg r pl =
      { r with landed := true
               landedPlanetIdx := pl.idx
               landedAngle := atan2 (r.y - pl.y) (r.x - pl.x)
               vx := pl.vx
               vy := pl.vy } := by
  unfold collidesWith at hc
  unfold handlePlanet
  rw [if_neg (by simp [ha]), if_neg (not_not_intro hc), if_pos hs]

theorem handlePlanet_crash (cfg : Config) (r : Rocket) (pl : Planet)
    (ha : r.alive = true) (hc : collidesWith cfg r.x r.y pl)
    (hs : ¬ relSpeed r pl < cfg.LANDING_SPEED) :
    handlePlanet cfg r pl = { r with alive := false } := by
  unfold collidesWith at hc
  unfold handlePlanet
  rw [if_neg (by simp [ha]), if_neg (not_not_intro hc), if_neg hs]

/-- Once the rocket is dead the whole remaining planet loop is inert (this
is the `if (!rocket.alive) break` of `src/game.js` line 599). -/
theorem foldl_handlePlanet_dead (cfg : Config) (l : List Planet) (r : Rocket)
    (h : r.alive = false) : l.foldl (handlePlanet cfg) r = r := by
  induction l with
  | nil => rfl
  | cons hd tl ih =>
    rw [List.foldl_cons, handlePlanet_dead cfg r hd h, ih]

/-- A planet loop over planets none of which overlap the rocket leaves the
rocket unchanged. -/
theorem foldl_handlePlanet_no_collision (cfg : Config) (l : List Planet) (r : Rocket)
    (h : ∀ pl ∈ l, ¬ collidesWith cfg r.x r.y pl) :
    l.foldl (handlePlanet cfg) r = r := by
  induction l with
  | nil => rfl
  | cons hd tl ih =>
    rw [List.foldl_cons, handlePlanet_no_collision cfg r hd (h hd (List.mem_cons_self hd tl)),
      ih (fun pl hm => h pl (List.mem_cons_of_mem hd hm))]


/-- `fixedStep` always advances the planets by exactly one `planetStep`,
whatever the rocket does. -/
theorem fixedStep_planets (cfg : Config) (forward : Bool) (s : SimState) :
    (fixedStep cfg forward s).planets = s.planets.map (planetStep cfg) := by
  unfold fixedStep
  dsimp only
  split
  · rfl
  · split <;> rfl

/-- `fixedStep` on a flying rocket takes the flying branch, fed with the
already-advanced planet list. -/
theorem fixedStep_eq_flying (cfg : Config) (forward : Bool) (s : SimState)
    (h1 : s.rocket.alive = true) (h2 : s.rocket.landed = false) :
    fixedStep cfg forward s =
      { planets := s.planets.map (planetStep cfg)
        rocket := flyingStep cfg forward (s.planets.map (planetStep cfg)) s.rocket } := by
  unfold fixedStep
  dsimp only
  rw [if_neg (by simp [h2]), if_pos h1]

/-- `fixedStep` on a landed rocket takes the landed branch. -/
theorem fixedStep_eq_landed (cfg : Config) (forward : Bool) (s : SimState)
    (h1 : s.rocket.alive = true) (h2 : s.rocket.landed = true) :
    fixedStep cfg forward s =
      { planets := s.planets.map (planetStep cfg)
        rocket := landedStep cfg forward (s.planets.map (planetStep cfg)) s.rocket } := by
  unfold fixedStep
  dsimp only
  rw [if_pos ⟨h1, h2⟩]

/-- `fixedStep` on a destroyed rocket leaves the rocket untouched. -/
theorem fixedStep_eq_dead (cfg : Config) (forward : Bool) (s : SimState)
    (h1 : s.rocket.alive = false) :
    fixedStep cfg forward s =
      { planets := s.planets.map (planetStep cfg), rocket := s.rocket } := by
  unfold fixedStep
  dsimp only
  rw [if_neg (by simp [h1]), if_neg (by simp [h1])]

-- ============================================================
-- Step ordering within one fixed step (C1)
-- ============================================================

noncomputable section

/-- The fixed step as the specification words it (spec §5, "Ordering
guarantee within a single fixed step"): the gravitational acceleration of
*every* body is computed from the positions all bodies had before any
integration of this step — a conceptually simultaneous update.  Planets
feel only the fixed sun, so their update is unchanged; the rocket's gravity
is computed from the PRE-step planet list `s.planets` instead of the
advanced one.  Collision resolution (which the spec orders after all
integrations) is unchanged.  This definition follows the spec's words, to
be compared with `fixedStep`, which follows the code. -/
def simultaneousStep (cfg : Config) (forward : Bool) (s : SimState) : SimState :=
  let pls := s.planets.map (planetStep cfg)
  let r := s.rocket
  if r.alive = true ∧ r.landed = true then
    { planets := pls, rocket := landedStep cfg forward pls r }
  else if r.alive = true then
    { planets := pls
      rocket := pls.foldl (handlePlanet cfg)
        (sunChecked cfg (rocketIntegrated cfg forward s.planets r)) }
  else
    { planets := pls, rocket := r }

/-- Level configuration for the ordering counterexample: gravity constant 1,
massless sun (so only the planet pulls the rocket), one massive fast planet. -/
def c1cfg : Config :=
  { G := 1, SUN_MASS := 0, ROCKET_MASS := 1, ROCKET_THRUST := 0
    ROCKET_ROTATION_SPEED := 0, LANDING_SPEED := 10, SUN_COLLISION_RADIUS := 1
    ROCKET_SIZE := 0.2, ROCKET_PLANET_ORBIT_RADIUS := 5, PLANETS := [] }

/-- A planet of mass 9 at `(2, 0)` moving right at speed 300: in one fixed
step it advances to `(4.5, 0)`, within the singularity-guard distance 1 of
the rocket. -/
def c1planet : Planet :=
  { idx := 0, mass := 9, radius := 0.1, collisionRadius := 0.1
    x := 2, y := 0, vx := 300, vy := 0 }

/-- A rocket at rest at `(5, 0)`. -/
def c1rocket : Rocket :=
  { x := 5, y := 0, vx := 0, vy := 0, angle := 0
    thrusting := false, alive := true, landed := false
    landedAngle := 0, landedPlanetIdx := 0 }

def c1state : SimState := { planets := [c1planet], rocket := c1rocket }

end

/-- Evaluating the planet step of the counterexample state. -/
theorem c1planet_step : planetStep c1cfg c1planet =
    { idx := 0, mass := 9, radius := 0.1, collisionRadius := 0.1
      x := 4.5, y := 0, vx := 300, vy := 0 } := by
  unfold planetStep c1cfg c1planet
  rw [gravitationalForce_zero_mass]
  dsimp only
  rw [integrate_zero_accel]
  unfold FIXED_DT
  norm_num

/-- The singularity guard fires whenever the squared distance is below 1. -/
theorem gravitationalForce_of_lt (g a_x a_y m b_x b_y : ℝ)
    (h : (a_x - b_x) * (a_x - b_x) + (a_y - b_y) * (a_y - b_y) < 1) :
    gravitationalForce g a_x a_y m b_x b_y = (0, 0) := by
  have hlt : Real.sqrt ((a_x - b_x) * (a_x - b_x) + (a_y - b_y) * (a_y - b_y)) < 1 :=
    (Real.sqrt_lt' one_pos).mpr (by nlinarith)
  unfold gravitationalForce
  dsimp only
  rw [if_pos hlt]

/-- The advanced planet of the ordering counterexample. -/
noncomputable def c1planetP : Planet :=
  { idx := 0, mass := 9, radius := 0.1, collisionRadius := 0.1
    x := 4.5, y := 0, vx := 300, vy := 0 }

theorem c1planet_step' : planetStep c1cfg c1planet = c1planetP := by
  rw [c1planet_step]; rfl

/-- In the code's ordering the planet has already advanced to `(4.5, 0)` —
inside the singularity guard radius of the rocket at `(5, 0)` — when the
rocket's gravity is computed, so the rocket feels no planet pull at all and
its velocity is unchanged. -/
theorem c1_code_rocket_vx : (fixedStep c1cfg false c1state).rocket.vx = 0 := by
  have hmap : c1state.planets.map (planetStep c1cfg) = [c1planetP] := by
    show List.map (planetStep c1cfg) [c1planet] = [c1planetP]
    rw [List.map_cons, List.map_nil, c1planet_step']
  rw [fixedStep_eq_flying c1cfg false c1state rfl rfl]
  dsimp only
  rw [hmap]
  unfold flyingStep
  have hri : rocketIntegrated c1cfg false [c1planetP] c1state.rocket = c1rocket := by
    show rocketIntegrated c1cfg false [c1planetP] c1rocket = c1rocket
    unfold rocketIntegrated rocketGravity
    dsimp only [c1cfg, c1rocket, c1planetP]
    rw [List.foldl_cons, List.foldl_nil, gravitationalForce_zero_mass,
      gravitationalForce_of_lt 1 4.5 0 9 5 0 (by norm_num)]
    rw [integrate]
    unfold FIXED_DT
    norm_num
  rw [hri]
  have hsun : ¬ checkCollision c1rocket.x c1rocket.y (c1cfg.ROCKET_SIZE * 0.5) 0 0
      c1cfg.SUN_COLLISION_RADIUS := by
    dsimp only [c1cfg, c1rocket]
    rw [checkCollision_iff 5 0 (0.2 * 0.5) 0 0 1 5 (by norm_num) (by norm_num)]
    norm_num
  rw [sunChecked_of_no_collision c1cfg c1rocket hsun]
  have hnc : ¬ collidesWith c1cfg c1rocket.x c1rocket.y c1planetP := by
    unfold collidesWith
    dsimp only [c1cfg, c1rocket, c1planetP]
    rw [checkCollision_iff 5 0 (0.2 * 0.5) 4.5 0 0.1 0.5 (by norm_num) (by norm_num)]
    norm_num
  rw [List.foldl_cons, handlePlanet_no_collision c1cfg c1rocket c1planetP hnc,
    List.foldl_nil]
  rfl

/-- The rocket after the specification's simultaneous update: it felt the
planet's pull from the pre-step position `(2, 0)` at distance 3. -/
noncomputable def c1rocketP : Rocket :=
  { x := 71999 / 14400, y := 0, vx := -(1 / 120), vy := 0, angle := 0
    thrusting := false, alive := true, landed := false
    landedAngle := 0, landedPlanetIdx := 0 }

theorem simultaneousStep_eq_flying (cfg : Config) (forward : Bool) (s : SimState)
    (h1 : s.rocket.alive = true) (h2 : s.rocket.landed = false) :
    simultaneousStep cfg forward s =
      { planets := s.planets.map (planetStep cfg)
        rocket := (s.planets.map (planetStep cfg)).foldl (handlePlanet cfg)
          (sunChecked cfg (rocketIntegrated cfg forward s.planets s.rocket)) } := by
  unfold simultaneousStep
  dsimp only
  rw [if_neg (by simp [h2]), if_pos h1]

/-- Under the specification's simultaneous ordering the rocket is pulled by
the planet from its pre-step position `(2, 0)` (distance 3, acceleration
`1·9/9 = 1` toward it), so its velocity changes by `-1/120`. -/
theorem c1_spec_rocket_vx : (simultaneousStep c1cfg false c1state).rocket.vx = -(1 / 120) := by
  have hmap : c1state.planets.map (planetStep c1cfg) = [c1planetP] := by
    show List.map (planetStep c1cfg) [c1planet] = [c1planetP]
    rw [List.map_cons, List.map_nil, c1planet_step']
  rw [simultaneousStep_eq_flying c1cfg false c1state rfl rfl]
  dsimp only
  rw [hmap]
  have hgrav : gravitationalForce 1 2 0 9 5 0 = (-1, 0) := by
    have h9 : dist2 2 0 5 0 = 3 * 3 := by unfold dist2; norm_num
    have h3 : Real.sqrt (dist2 2 0 5 0) = 3 := by
      rw [h9, Real.sqrt_mul_self (by norm_num : (0 : ℝ) ≤ 3)]
    rw [gravitationalForce_eq_of_ge 1 2 0 9 5 0 (by rw [h3]; norm_num), h3]
    unfold dist2
    norm_num
  have hri : rocketIntegrated c1cfg false c1state.planets c1state.rocket = c1rocketP := by
    show rocketIntegrated c1cfg false [c1planet] c1rocket = c1rocketP
    unfold rocketIntegrated rocketGravity
    dsimp only [c1cfg, c1rocket, c1planet]
    rw [List.foldl_cons, List.foldl_nil, gravitationalForce_zero_mass, hgrav]
    rw [integrate]
    unfold FIXED_DT c1rocketP
    norm_num
  rw [hri]
  have hsun : ¬ checkCollision c1rocketP.x c1rocketP.y (c1cfg.ROCKET_SIZE * 0.5) 0 0
      c1cfg.SUN_COLLISION_RADIUS := by
    dsimp only [c1cfg, c1rocketP]
    rw [checkCollision_iff (71999 / 14400) 0 (0.2 * 0.5) 0 0 1 (71999 / 14400)
      (by norm_num) (by norm_num)]
    norm_num
  rw [sunChecked_of_no_collision c1cfg c1rocketP hsun]
  have hnc : ¬ collidesWith c1cfg c1rocketP.x c1rocketP.y c1planetP := by
    unfold collidesWith
    dsimp only [c1cfg, c1rocketP, c1planetP]
    rw [checkCollision_iff (71999 / 14400) 0 (0.2 * 0.5) 4.5 0 0.1 (7199 / 14400)
      (by norm_num) (by norm_num)]
    norm_num
  rw [List.foldl_cons, handlePlanet_no_collision c1cfg c1rocketP c1planetP hnc,
    List.foldl_nil]
  rfl

/-- C1 fails on the code: at the concrete state `c1state` the code's fixed
step (planets integrated first, rocket gravity read off the advanced
positions) leaves the rocket's velocity unchanged, while the simultaneous
update the specification demands (rocket gravity from the pre-step planet
positions) changes it by `-1/120`; the two step functions disagree. -/
theorem step_ordering_counterexample :
    (fixedStep c1cfg false c1state).rocket.vx = 0 ∧
    (simultaneousStep c1cfg false c1state).rocket.vx = -(1 / 120) ∧
    (fixedStep c1cfg false c1state).rocket.vx ≠
      (simultaneousStep c1cfg false c1state).rocket.vx := by
  refine ⟨c1_code_rocket_vx, c1_spec_rocket_vx, ?_⟩
  rw [c1_code_rocket_vx, c1_spec_rocket_vx]
  norm_num

/-- C1 as amended: within one fixed step the planets are all integrated
first (each from its own pre-step state and the fixed sun only), and the
rocket's branch — including its gravitational acceleration — then consumes
the *already-advanced* planet list, not the pre-step positions.  Planets
never see another planet's or the rocket's position, so for them the
sequential and simultaneous orderings coincide. -/
theorem step_planets_first_rocket_second (cfg : Config) (forward : Bool) (s : SimState)
    (h1 : s.rocket.alive = true) (h2 : s.rocket.landed = false) :
    (fixedStep cfg forward s).planets = s.planets.map (planetStep cfg) ∧
    (fixedStep cfg forward s).rocket =
      flyingStep cfg forward (s.planets.map (planetStep cfg)) s.rocket ∧
    (simultaneousStep cfg forward s).planets = s.planets.map (planetStep cfg) := by
  refine ⟨fixedStep_planets cfg forward s, ?_, ?_⟩
  · rw [fixedStep_eq_flying cfg forward s h1 h2]
  · unfold simultaneousStep
    dsimp only
    rw [if_neg (by simp [h2]), if_pos h1]

/-- Witness for `step_planets_first_rocket_second` at the concrete
counterexample state. -/
theorem step_planets_first_rocket_second_witness :
    (fixedStep c1cfg false c1state).planets = c1state.planets.map (planetStep c1cfg) ∧
    (fixedStep c1cfg false c1state).rocket =
      flyingStep c1cfg false (c1state.planets.map (planetStep c1cfg)) c1state.rocket ∧
    (simultaneousStep c1cfg false c1state).planets = c1state.planets.map (planetStep c1cfg) :=
  step_planets_first_rocket_second c1cfg false c1state rfl rfl

-- ============================================================
-- Sun-collision priority (C4)
-- ============================================================

/-- C4: in any fixed step entered with a flying rocket whose end-of-step
(post-integration) position overlaps the sun's collision disc — and in
particular also overlaps some planet's collision disc — the resulting
lifecycle state is Destroyed: the sun check runs first and the planet loop
breaks immediately on a dead rocket, so no landing can override it,
whatever the relative speed to the overlapping planet. -/
theorem sun_collision_priority (cfg : Config) (forward : Bool) (s : SimState)
    (h1 : s.rocket.alive = true) (h2 : s.rocket.landed = false)
    (hsun : checkCollision (postRocket cfg forward s).x (postRocket cfg forward s).y
      (cfg.ROCKET_SIZE * 0.5) 0 0 cfg.SUN_COLLISION_RADIUS)
    (_hpl : ∃ pl ∈ s.planets.map (planetStep cfg),
      collidesWith cfg (postRocket cfg forward s).x (postRocket cfg forward s).y pl) :
    (fixedStep cfg forward s).rocket.alive = false := by
  rw [fixedStep_eq_flying cfg forward s h1 h2]
  dsimp only
  unfold flyingStep
  rw [show rocketIntegrated cfg forward (s.planets.map (planetStep cfg)) s.rocket =
      postRocket cfg forward s from rfl]
  rw [sunChecked_of_collision cfg _ hsun]
  rw [foldl_handlePlanet_dead cfg _ _ rfl]

/-- Level configuration for the sun-priority witness: zero gravity, a sun
collision disc of radius 3 and one planet sitting right on the rocket. -/
noncomputable def c4cfg : Config :=
  { G := 0, SUN_MASS := 5, ROCKET_MASS := 1, ROCKET_THRUST := 0
    ROCKET_ROTATION_SPEED := 0, LANDING_SPEED := 10, SUN_COLLISION_RADIUS := 3
    ROCKET_SIZE := 1, ROCKET_PLANET_ORBIT_RADIUS := 5, PLANETS := [] }

noncomputable def c4planet : Planet :=
  { idx := 0, mass := 0, radius := 1, collisionRadius := 1
    x := 2, y := 0, vx := 0, vy := 0 }

noncomputable def c4rocket : Rocket :=
  { x := 2, y := 0, vx := 0, vy := 0, angle := 0
    thrusting := false, alive := true, landed := false
    landedAngle := 0, landedPlanetIdx := 0 }

noncomputable def c4state : SimState := { planets := [c4planet], rocket := c4rocket }

theorem c4planet_step : planetStep c4cfg c4planet = c4planet := by
  unfold planetStep c4cfg c4planet
  rw [gravitationalForce_zero_G]
  dsimp only
  rw [integrate_zero_accel]
  norm_num

theorem c4postRocket : postRocket c4cfg false c4state = c4rocket := by
  unfold postRocket
  show rocketIntegrated c4cfg false (List.map (planetStep c4cfg) [c4planet]) c4rocket = c4rocket
  rw [List.map_cons, List.map_nil, c4planet_step]
  unfold rocketIntegrated rocketGravity
  dsimp only [c4cfg, c4rocket, c4planet]
  rw [List.foldl_cons, List.foldl_nil, gravitationalForce_zero_G, gravitationalForce_zero_G]
  rw [integrate]
  unfold FIXED_DT
  norm_num

/-- Witness for `sun_collision_priority`: the rocket at `(2, 0)` overlaps
both the sun disc (radius 3) and the planet at `(2, 0)`, and ends the step
destroyed. -/
theorem sun_collision_priority_witness :
    (fixedStep c4cfg false c4state).rocket.alive = false := by
  apply sun_collision_priority c4cfg false c4state rfl rfl
  · rw [c4postRocket]
    show checkCollision 2 0 (c4cfg.ROCKET_SIZE * 0.5) 0 0 c4cfg.SUN_COLLISION_RADIUS
    dsimp only [c4cfg]
    rw [checkCollision_iff 2 0 (1 * 0.5) 0 0 3 2 (by norm_num) (by norm_num)]
    norm_num
  · refine ⟨c4planet, ?_, ?_⟩
    · show c4planet ∈ List.map (planetStep c4cfg) [c4planet]
      rw [List.map_cons, List.map_nil, c4planet_step]
      exact List.mem_cons_self _ _
    · rw [c4postRocket]
      unfold collidesWith
      show checkCollision 2 0 (c4cfg.ROCKET_SIZE * 0.5) c4planet.x c4planet.y c4planet.collisionRadius
      dsimp only [c4cfg, c4planet]
      rw [checkCollision_iff 2 0 (1 * 0.5) 2 0 1 0 (by norm_num) (by norm_num)]
      norm_num

-- ============================================================
-- Landing-speed boundary (C5)
-- ============================================================

theorem postRocket_alive (cfg : Config) (forward : Bool) (s : SimState) :
    (postRocket cfg forward s).alive = s.rocket.alive := rfl

theorem postRocket_landed (cfg : Config) (forward : Bool) (s : SimState) :
    (postRocket cfg forward s).landed = s.rocket.landed := rfl

/-- C5: in a fixed step entered with a flying rocket that is not destroyed
by the sun and whose end-of-step position overlaps exactly one planet `pl`
(the list splits as `l1 ++ pl :: l2` with no other overlap), the outcome is
decided by the strict comparison of `|rocket velocity − planet velocity|`
with `LANDING_SPEED`: strictly below lands (recording the planet index and
the `atan2` touchdown angle and snapping the velocity to the planet's), at
or above — including exact equality — destroys the rocket. -/
theorem landing_speed_boundary (cfg : Config) (forward : Bool) (s : SimState)
    (l1 l2 : List Planet) (pl : Planet)
    (h1 : s.rocket.alive = true) (h2 : s.rocket.landed = false)
    (hpls : s.planets.map (planetStep cfg) = l1 ++ pl :: l2)
    (hsun : ¬ checkCollision (postRocket cfg forward s).x (postRocket cfg forward s).y
      (cfg.ROCKET_SIZE * 0.5) 0 0 cfg.SUN_COLLISION_RADIUS)
    (hcoll : collidesWith cfg (postRocket cfg forward s).x (postRocket cfg forward s).y pl)
    (hothers : ∀ q ∈ l1 ++ l2,
      ¬ collidesWith cfg (postRocket cfg forward s).x (postRocket cfg forward s).y q) :
    (relSpeed (postRocket cfg forward s) pl < cfg.LANDING_SPEED →
      (fixedStep cfg forward s).rocket =
        { postRocket cfg forward s with
          landed := true
          landedPlanetIdx := pl.idx
          landedAngle := atan2 ((postRocket cfg forward s).y - pl.y)
            ((postRocket cfg forward s).x - pl.x)
          vx := pl.vx
          vy := pl.vy }) ∧
    (cfg.LANDING_SPEED ≤ relSpeed (postRocket cfg forward s) pl →
      (fixedStep cfg forward s).rocket.alive = false ∧
      (fixedStep cfg forward s).rocket.landed = false) := by
  have hstep : (fixedStep cfg forward s).rocket =
      (l1 ++ pl :: l2).foldl (handlePlanet cfg) (postRocket cfg forward s) := by
    rw [fixedStep_eq_flying cfg forward s h1 h2]
    dsimp only
    unfold flyingStep
    rw [show rocketIntegrated cfg forward (s.planets.map (planetStep cfg)) s.rocket =
        postRocket cfg forward s from rfl]
    rw [sunChecked_of_no_collision cfg _ hsun, hpls]
  have hfold1 : l1.foldl (handlePlanet cfg) (postRocket cfg forward s) =
      postRocket cfg forward s :=
    foldl_handlePlanet_no_collision cfg l1 _
      (fun q hq => hothers q (List.mem_append_left _ hq))
  have halive : (postRocket cfg forward s).alive = true := by
    rw [postRocket_alive]; exact h1
  constructor
  · intro hrel
    have hland := handlePlanet_land cfg (postRocket cfg forward s) pl halive hcoll hrel
    rw [hstep, List.foldl_append, hfold1, List.foldl_cons, hland]
    exact foldl_handlePlanet_no_collision cfg l2 _
      (fun q hq => hothers q (List.mem_append_right _ hq))
  · intro hrel
    have hcrash := handlePlanet_crash cfg (postRocket cfg forward s) pl halive hcoll
      (not_lt.mpr hrel)
    rw [hstep, List.foldl_append, hfold1, List.foldl_cons, hcrash]
    rw [foldl_handlePlanet_dead cfg l2 _ rfl]
    exact ⟨rfl, h2⟩

/-- Level configuration for the boundary witness: zero gravity, landing
threshold 12, one stationary planet. -/
noncomputable def c5cfg : Config :=
  { G := 0, SUN_MASS := 0, ROCKET_MASS := 1, ROCKET_THRUST := 0
    ROCKET_ROTATION_SPEED := 0, LANDING_SPEED := 12, SUN_COLLISION_RADIUS := 1
    ROCKET_SIZE := 1, ROCKET_PLANET_ORBIT_RADIUS := 5, PLANETS := [] }

noncomputable def c5planet : Planet :=
  { idx := 0, mass := 0, radius := 4, collisionRadius := 4
    x := 100, y := 0, vx := 0, vy := 0 }

/-- A rocket approaching the planet at exactly the landing-speed threshold
(relative speed 12). -/
noncomputable def c5rocket : Rocket :=
  { x := 969 / 10, y := 0, vx := 12, vy := 0, angle := 0
    thrusting := false, alive := true, landed := false
    landedAngle := 0, landedPlanetIdx := 0 }

noncomputable def c5state : SimState := { planets := [c5planet], rocket := c5rocket }

theorem c5planet_step : planetStep c5cfg c5planet = c5planet := by
  unfold planetStep c5cfg c5planet
  rw [gravitationalForce_zero_G]
  dsimp only
  rw [integrate_zero_accel]
  norm_num

/-- After integration the rocket sits at `(97, 0)`, 3 units from the planet
centre, still moving at 12. -/
noncomputable def c5rocketP : Rocket :=
  { x := 97, y := 0, vx := 12, vy := 0, angle := 0
    thrusting := false, alive := true, landed := false
    landedAngle := 0, landedPlanetIdx := 0 }

theorem c5postRocket : postRocket c5cfg false c5state = c5rocketP := by
  unfold postRocket
  show rocketIntegrated c5cfg false (List.map (planetStep c5cfg) [c5planet]) c5rocket = c5rocketP
  rw [List.map_cons, List.map_nil, c5planet_step]
  unfold rocketIntegrated rocketGravity
  dsimp only [c5cfg, c5rocket, c5planet]
  rw [List.foldl_cons, List.foldl_nil, gravitationalForce_zero_G, gravitationalForce_zero_G]
  rw [integrate]
  unfold FIXED_DT c5rocketP
  norm_num

/-- Witness for `landing_speed_boundary` at the exact threshold: relative
speed 12 with `LANDING_SPEED = 12` crashes (the comparison is strict). -/
theorem landing_speed_boundary_witness :
    relSpeed (postRocket c5cfg false c5state) c5planet = c5cfg.LANDING_SPEED ∧
    (fixedStep c5cfg false c5state).rocket.alive = false ∧
    (fixedStep c5cfg false c5state).rocket.landed = false := by
  have hrel : relSpeed (postRocket c5cfg false c5state) c5planet = 12 := by
    rw [c5postRocket]
    exact relSpeed_eval c5rocketP c5planet 12 (by norm_num)
      (by dsimp only [c5rocketP, c5planet]; norm_num)
  refine ⟨by rw [hrel]; rfl, ?_⟩
  apply (landing_speed_boundary c5cfg false c5state [] [] c5planet rfl rfl ?_ ?_ ?_ ?_).2 ?_
  · show List.map (planetStep c5cfg) [c5planet] = [] ++ c5planet :: []
    rw [List.map_cons, List.map_nil, c5planet_step]
    rfl
  · rw [c5postRocket]
    show ¬ checkCollision 97 0 (c5cfg.ROCKET_SIZE * 0.5) 0 0 c5cfg.SUN_COLLISION_RADIUS
    dsimp only [c5cfg]
    rw [checkCollision_iff 97 0 (1 * 0.5) 0 0 1 97 (by norm_num) (by norm_num)]
    norm_num
  · rw [c5postRocket]
    unfold collidesWith
    show checkCollision 97 0 (c5cfg.ROCKET_SIZE * 0.5) c5planet.x c5planet.y c5planet.collisionRadius
    dsimp only [c5cfg, c5planet]
    rw [checkCollision_iff 97 0 (1 * 0.5) 100 0 4 3 (by norm_num) (by norm_num)]
    norm_num
  · intro q hq
    simp at hq
  · rw [hrel]
    norm_num [c5cfg]

-- ============================================================
-- The collision loop after a landing or a destruction (C2)
-- ============================================================

/-- Level configuration for the loop counterexample: zero gravity, two
stationary planets whose collision discs both reach the rocket. -/
noncomputable def c2cfg : Config :=
  { G := 0, SUN_MASS := 0, ROCKET_MASS := 1, ROCKET_THRUST := 0
    ROCKET_ROTATION_SPEED := 0, LANDING_SPEED := 10, SUN_COLLISION_RADIUS := 1
    ROCKET_SIZE := 1, ROCKET_PLANET_ORBIT_RADIUS := 5, PLANETS := [] }

noncomputable def c2p0 : Planet :=
  { idx := 0, mass := 0, radius := 6, collisionRadius := 6
    x := 100, y := 0, vx := 0, vy := 0 }

noncomputable def c2p1 : Planet :=
  { idx := 1, mass := 0, radius := 5, collisionRadius := 5
    x := 109, y := 0, vx := 0, vy := 0 }

noncomputable def c2rocket : Rocket :=
  { x := 105, y := 0, vx := 0, vy := 0, angle := 0
    thrusting := false, alive := true, landed := false
    landedAngle := 0, landedPlanetIdx := 0 }

noncomputable def c2state : SimState := { planets := [c2p0, c2p1], rocket := c2rocket }

/-- The same situation with the second planet removed, to exhibit what the
loop records when it stops at the first landing. -/
noncomputable def c2state0 : SimState := { planets := [c2p0], rocket := c2rocket }

theorem c2p0_step : planetStep c2cfg c2p0 = c2p0 := by
  unfold planetStep c2cfg c2p0
  rw [gravitationalForce_zero_G]
  dsimp only
  rw [integrate_zero_accel]
  norm_num

theorem c2p1_step : planetStep c2cfg c2p1 = c2p1 := by
  unfold planetStep c2cfg c2p1
  rw [gravitationalForce_zero_G]
  dsimp only
  rw [integrate_zero_accel]
  norm_num

theorem c2postRocket : postRocket c2cfg false c2state = c2rocket := by
  unfold postRocket
  show rocketIntegrated c2cfg false (List.map (planetStep c2cfg) [c2p0, c2p1]) c2rocket = c2rocket
  rw [List.map_cons, List.map_cons, List.map_nil, c2p0_step, c2p1_step]
  unfold rocketIntegrated rocketGravity
  dsimp only [c2cfg, c2rocket, c2p0, c2p1]
  rw [List.foldl_cons, List.foldl_cons, List.foldl_nil,
    gravitationalForce_zero_G, gravitationalForce_zero_G, gravitationalForce_zero_G]
  rw [integrate]
  unfold FIXED_DT
  norm_num

theorem c2postRocket0 : postRocket c2cfg false c2state0 = c2rocket := by
  unfold postRocket
  show rocketIntegrated c2cfg false (List.map (planetStep c2cfg) [c2p0]) c2rocket = c2rocket
  rw [List.map_cons, List.map_nil, c2p0_step]
  unfold rocketIntegrated rocketGravity
  dsimp only [c2cfg, c2rocket, c2p0]
  rw [List.foldl_cons, List.foldl_nil, gravitationalForce_zero_G, gravitationalForce_zero_G]
  rw [integrate]
  unfold FIXED_DT
  norm_num

theorem c2sun : ¬ checkCollision c2rocket.x c2rocket.y (c2cfg.ROCKET_SIZE * 0.5) 0 0
    c2cfg.SUN_COLLISION_RADIUS := by
  dsimp only [c2cfg, c2rocket]
  rw [checkCollision_iff 105 0 (1 * 0.5) 0 0 1 105 (by norm_num) (by norm_num)]
  norm_num

theorem c2coll0 : collidesWith c2cfg c2rocket.x c2rocket.y c2p0 := by
  unfold collidesWith
  dsimp only [c2cfg, c2rocket, c2p0]
  rw [checkCollision_iff 105 0 (1 * 0.5) 100 0 6 5 (by norm_num) (by norm_num)]
  norm_num

theorem c2rel0 : relSpeed c2rocket c2p0 = 0 :=
  relSpeed_eval c2rocket c2p0 0 (by norm_num)
    (by dsimp only [c2rocket, c2p0]; norm_num)

/-- The rocket as recorded right after landing on the first planet. -/
noncomputable def c2landed0 : Rocket :=
  { x := 105, y := 0, vx := 0, vy := 0, angle := 0
    thrusting := false, alive := true, landed := true
    landedAngle := atan2 0 5, landedPlanetIdx := 0 }

theorem c2handle0 : handlePlanet c2cfg c2rocket c2p0 = c2landed0 := by
  rw [handlePlanet_land c2cfg c2rocket c2p0 rfl c2coll0 (by rw [c2rel0]; norm_num [c2cfg])]
  dsimp only [c2rocket, c2p0, c2landed0]
  norm_num

theorem c2coll1 : collidesWith c2cfg c2landed0.x c2landed0.y c2p1 := by
  unfold collidesWith
  dsimp only [c2cfg, c2landed0, c2p1]
  rw [checkCollision_iff 105 0 (1 * 0.5) 109 0 5 4 (by norm_num) (by norm_num)]
  norm_num

theorem c2rel1 : relSpeed c2landed0 c2p1 = 0 :=
  relSpeed_eval c2landed0 c2p1 0 (by norm_num)
    (by dsimp only [c2landed0, c2p1]; norm_num)

/-- The rocket after the loop has gone on to the second planet and
re-landed there. -/
noncomputable def c2landed1 : Rocket :=
  { x := 105, y := 0, vx := 0, vy := 0, angle := 0
    thrusting := false, alive := true, landed := true
    landedAngle := atan2 0 (-4), landedPlanetIdx := 1 }

theorem c2handle1 : handlePlanet c2cfg c2landed0 c2p1 = c2landed1 := by
  rw [handlePlanet_land c2cfg c2landed0 c2p1 rfl c2coll1 (by rw [c2rel1]; norm_num [c2cfg])]
  dsimp only [c2landed0, c2p1, c2landed1]
  norm_num

/-- C2 fails on the code: the first planet in list order overlaps the
rocket slowly enough to land (with only that planet present the step
records landing on planet index 0), yet with a second overlapping planet in
the list the same step ends landed on planet index 1 — the loop kept
testing planets after the landing and re-landed the rocket.  Only a
destruction stops the loop (`if (!rocket.alive) break`), not a landing. -/
theorem landing_does_not_stop_loop_counterexample :
    collidesWith c2cfg (postRocket c2cfg false c2state).x
      (postRocket c2cfg false c2state).y c2p0 ∧
    relSpeed (postRocket c2cfg false c2state) c2p0 < c2cfg.LANDING_SPEED ∧
    (fixedStep c2cfg false c2state0).rocket.landedPlanetIdx = 0 ∧
    (fixedStep c2cfg false c2state).rocket.landed = true ∧
    (fixedStep c2cfg false c2state).rocket.landedPlanetIdx = 1 := by
  have hstep : (fixedStep c2cfg false c2state).rocket =
      [c2p0, c2p1].foldl (handlePlanet c2cfg) c2rocket := by
    rw [fixedStep_eq_flying c2cfg false c2state rfl rfl]
    dsimp only
    unfold flyingStep
    rw [show rocketIntegrated c2cfg false (c2state.planets.map (planetStep c2cfg))
        c2state.rocket = postRocket c2cfg false c2state from rfl]
    rw [c2postRocket, sunChecked_of_no_collision c2cfg c2rocket c2sun]
    show List.foldl (handlePlanet c2cfg) c2rocket (List.map (planetStep c2cfg) [c2p0, c2p1]) = _
    rw [List.map_cons, List.map_cons, List.map_nil, c2p0_step, c2p1_step]
  have hstep0 : (fixedStep c2cfg false c2state0).rocket =
      [c2p0].foldl (handlePlanet c2cfg) c2rocket := by
    rw [fixedStep_eq_flying c2cfg false c2state0 rfl rfl]
    dsimp only
    unfold flyingStep
    rw [show rocketIntegrated c2cfg false (c2state0.planets.map (planetStep c2cfg))
        c2state0.rocket = postRocket c2cfg false c2state0 from rfl]
    rw [c2postRocket0, sunChecked_of_no_collision c2cfg c2rocket c2sun]
    show List.foldl (handlePlanet c2cfg) c2rocket (List.map (planetStep c2cfg) [c2p0]) = _
    rw [List.map_cons, List.map_nil, c2p0_step]
  refine ⟨by rw [c2postRocket]; exact c2coll0, by rw [c2postRocket, c2rel0]; norm_num [c2cfg],
    ?_, ?_, ?_⟩
  · rw [hstep0, List.foldl_cons, c2handle0, List.foldl_nil]
    rfl
  · rw [hstep, List.foldl_cons, c2handle0, List.foldl_cons, c2handle1, List.foldl_nil]
    rfl
  · rw [hstep, List.foldl_cons, c2handle0, List.foldl_cons, c2handle1, List.foldl_nil]
    rfl

/-- C2 as amended: once the rocket is Destroyed at some point of a step's
planet-collision loop, every remaining planet in the list leaves the state
unchanged (the loop breaks on a dead rocket), so a destruction is final for
that step; a landing, by contrast, does not stop the loop (see the
counterexample). -/
theorem destruction_stops_collision_loop (cfg : Config) (l : List Planet) (r : Rocket)
    (h : r.alive = false) : l.foldl (handlePlanet cfg) r = r := by
  induction l with
  | nil => rfl
  | cons hd tl ih =>
    rw [List.foldl_cons, handlePlanet_dead cfg r hd h, ih]

/-- Witness for `destruction_stops_collision_loop`: a dead rocket folded
through both counterexample planets is untouched. -/
theorem destruction_stops_collision_loop_witness :
    [c2p0, c2p1].foldl (handlePlanet c2cfg) { c2rocket with alive := false } =
      { c2rocket with alive := false } :=
  destruction_stops_collision_loop c2cfg [c2p0, c2p1] _ rfl

-- ============================================================
-- Respawn semantics (C8)
-- ============================================================

noncomputable section

/-- `respawnRocket` from `src/game.js` lines 376–387: reset the rocket to
the circular-orbit insertion state around the home (first) planet's
*current* position and velocity.  `landedAngle` and `landedPlanetIdx` are
not touched by the source and stay as they were. -/
def respawnRocket (cfg : Config) (pls : List Planet) (r : Rocket) : Rocket :=
  let homePlanet := pls.getD 0 dfltPlanet
  let v := Real.sqrt (cfg.G * homePlanet.mass / cfg.ROCKET_PLANET_ORBIT_RADIUS)
  { r with
    x := homePlanet.x + cfg.ROCKET_PLANET_ORBIT_RADIUS
    y := homePlanet.y
    vx := homePlanet.vx
    vy := homePlanet.vy + v
    angle := π / 2
    thrusting := false
    alive := true
    landed := false }

/-- The respawn *command* as bound to the R key (`src/game.js` lines
389–391): `if (e.code === 'KeyR' && !rocket.alive) respawnRocket();` — a
no-op unless the rocket is destroyed. -/
def respawnCommand (cfg : Config) (pls : List Planet) (r : Rocket) : Rocket :=
  if r.alive = true then r else respawnRocket cfg pls r

end

/-- C8: the respawn command is a no-op while the rocket is alive (Flying or
Landed — no rocket field changes), and on a Destroyed rocket it
deterministically restores the orbital-insertion state around the home
(first) planet: position at the insertion radius from the home planet,
velocity equal to the home planet's velocity plus the circular-orbit
insertion speed, facing angle reset to `π/2`, state Flying (`alive`), and
the `thrusting` and `landed` flags cleared. -/
theorem respawn_semantics (cfg : Config) (pls : List Planet) (r : Rocket) :
    (r.alive = true → respawnCommand cfg pls r = r) ∧
    (r.alive = false →
      respawnCommand cfg pls r =
        { r with
          x := (pls.getD 0 dfltPlanet).x + cfg.ROCKET_PLANET_ORBIT_RADIUS
          y := (pls.getD 0 dfltPlanet).y
          vx := (pls.getD 0 dfltPlanet).vx
          vy := (pls.getD 0 dfltPlanet).vy +
            Real.sqrt (cfg.G * (pls.getD 0 dfltPlanet).mass / cfg.ROCKET_PLANET_ORBIT_RADIUS)
          angle := π / 2
          thrusting := false
          alive := true
          landed := false }) := by
  constructor
  · intro h
    unfold respawnCommand
    rw [if_pos h]
  · intro h
    unfold respawnCommand respawnRocket
    rw [if_neg (by simp [h])]

noncomputable def c8cfg : Config :=
  { G := 0, SUN_MASS := 0, ROCKET_MASS := 1, ROCKET_THRUST := 0
    ROCKET_ROTATION_SPEED := 0, LANDING_SPEED := 10, SUN_COLLISION_RADIUS := 1
    ROCKET_SIZE := 1, ROCKET_PLANET_ORBIT_RADIUS := 3, PLANETS := [] }

noncomputable def c8planet : Planet :=
  { idx := 0, mass := 0, radius := 1, collisionRadius := 1
    x := 7, y := 8, vx := 1, vy := 2 }

/-- A destroyed rocket with arbitrary stale fields. -/
noncomputable def c8deadRocket : Rocket :=
  { x := -50, y := 60, vx := 4, vy := -9, angle := 1
    thrusting := true, alive := false, landed := false
    landedAngle := 5, landedPlanetIdx := 3 }

/-- A flying rocket, to witness the no-op half. -/
noncomputable def c8aliveRocket : Rocket :=
  { x := 11, y := 12, vx := 13, vy := 14, angle := 2
    thrusting := true, alive := true, landed := false
    landedAngle := 6, landedPlanetIdx := 2 }

/-- Witness for `respawn_semantics`: the command leaves an alive rocket
untouched and resets the destroyed rocket into insertion orbit around the
home planet at `(7, 8)` (with `G = 0` the insertion speed is `√0 = 0`). -/
theorem respawn_semantics_witness :
    respawnCommand c8cfg [c8planet] c8aliveRocket = c8aliveRocket ∧
    respawnCommand c8cfg [c8planet] c8deadRocket =
      { x := 10, y := 8, vx := 1, vy := 2, angle := π / 2
        thrusting := false, alive := true, landed := false
        landedAngle := 5, landedPlanetIdx := 3 } := by
  constructor
  · exact (respawn_semantics c8cfg [c8planet] c8aliveRocket).1 rfl
  · rw [(respawn_semantics c8cfg [c8planet] c8deadRocket).2 rfl]
    dsimp only [c8cfg, c8planet, c8deadRocket]
    norm_num

-- ============================================================
-- Rocket lifecycle invariant over reachable states (C6)
-- ============================================================

noncomputable section

/-- The per-frame real-time rotation pass (`src/game.js` lines 513–516):
while alive, the left key adds and the right key subtracts
`ROCKET_ROTATION_SPEED · frameDt`, sequentially. -/
def rotateInput (cfg : Config) (leftKey rightKey : Bool) (frameDt : ℝ) (s : SimState) :
    SimState :=
  if s.rocket.alive = true then
    let r1 :=
      if leftKey then
        { s.rocket with angle := s.rocket.angle + cfg.ROCKET_ROTATION_SPEED * frameDt }
      else s.rocket
    let r2 :=
      if rightKey then { r1 with angle := r1.angle - cfg.ROCKET_ROTATION_SPEED * frameDt }
      else r1
    { s with rocket := r2 }
  else s

/-- The respawn key applied to a whole simulation state. -/
def respawnStep (cfg : Config) (s : SimState) : SimState :=
  { s with rocket := respawnCommand cfg s.planets s.rocket }

end

/-- Atomic reachability for the game loop: the initial state, one fixed
simulation step under any thrust input, the per-frame rotation pass under
any keys and frame delta, and the respawn key.  Any state the real
`animate` loop visits arises from `initState` by a sequence of these
mutations (each frame is one rotation pass followed by the scheduler's
number of fixed steps; the respawn handler runs between frames). -/
inductive Reach (cfg : Config) : SimState → Prop where
  | init : Reach cfg (initState cfg)
  | step (s : SimState) (forward : Bool) :
      Reach cfg s → Reach cfg (fixedStep cfg forward s)
  | rotate (s : SimState) (leftKey rightKey : Bool) (frameDt : ℝ) :
      Reach cfg s → Reach cfg (rotateInput cfg leftKey rightKey frameDt s)
  | respawn (s : SimState) : Reach cfg s → Reach cfg (respawnStep cfg s)

/-- At most one planet of the advanced list overlaps the rocket's
end-of-step position: either none does, or the list splits around a single
(possibly overlapping) planet with no overlap elsewhere. -/
def SeparatedStep (cfg : Config) (forward : Bool) (s : SimState) : Prop :=
  (∀ q ∈ s.planets.map (planetStep cfg),
    ¬ collidesWith cfg (postRocket cfg forward s).x (postRocket cfg forward s).y q) ∨
  (∃ l1 pl l2, s.planets.map (planetStep cfg) = l1 ++ pl :: l2 ∧
    (∀ q ∈ l1 ++ l2,
      ¬ collidesWith cfg (postRocket cfg forward s).x (postRocket cfg forward s).y q))

/-- Reachability restricted to runs in which every fixed step has at most
one planet overlapping the rocket (always the case in the shipped level
presets, whose planets orbit at widely separated radii). -/
inductive ReachSep (cfg : Config) : SimState → Prop where
  | init : ReachSep cfg (initState cfg)
  | step (s : SimState) (forward : Bool) :
      ReachSep cfg s → SeparatedStep cfg forward s → ReachSep cfg (fixedStep cfg forward s)
  | rotate (s : SimState) (leftKey rightKey : Bool) (frameDt : ℝ) :
      ReachSep cfg s → ReachSep cfg (rotateInput cfg leftKey rightKey frameDt s)
  | respawn (s : SimState) : ReachSep cfg s → ReachSep cfg (respawnStep cfg s)

theorem landedStep_alive (cfg : Config) (forward : Bool) (pls : List Planet) (r : Rocket) :
    (landedStep cfg forward pls r).alive = r.alive := by
  unfold landedStep
  dsimp only
  split <;> rfl

theorem rotateInput_lifecycle (cfg : Config) (leftKey rightKey : Bool) (frameDt : ℝ)
    (s : SimState) :
    (rotateInput cfg leftKey rightKey frameDt s).rocket.alive = s.rocket.alive ∧
    (rotateInput cfg leftKey rightKey frameDt s).rocket.landed = s.rocket.landed := by
  unfold rotateInput
  dsimp only
  split
  · constructor <;> (split <;> split <;> rfl)
  · exact ⟨rfl, rfl⟩

/-- One fixed step with at most one overlapping planet cannot leave the
rocket both dead and flagged landed. -/
theorem fixedStep_preserves_lifecycle (cfg : Config) (forward : Bool) (s : SimState)
    (hsep : SeparatedStep cfg forward s)
    (hok : ¬(s.rocket.alive = false ∧ s.rocket.landed = true)) :
    ¬((fixedStep cfg forward s).rocket.alive = false ∧
      (fixedStep cfg forward s).rocket.landed = true) := by
  by_cases ha : s.rocket.alive = true
  · by_cases hl : s.rocket.landed = true
    · rw [fixedStep_eq_landed cfg forward s ha hl]
      dsimp only
      rw [landedStep_alive]
      simp [ha]
    · have hl' : s.rocket.landed = false := by
        revert hl; cases s.rocket.landed <;> simp
      rw [fixedStep_eq_flying cfg forward s ha hl']
      dsimp only
      unfold flyingStep
      rw [show rocketIntegrated cfg forward (s.planets.map (planetStep cfg)) s.rocket =
          postRocket cfg forward s from rfl]
      have halive1 : (postRocket cfg forward s).alive = true := by
        rw [postRocket_alive]; exact ha
      have hlanded1 : (postRocket cfg forward s).landed = false := by
        rw [postRocket_landed]; exact hl'
      by_cases hsuncol : checkCollision (postRocket cfg forward s).x
          (postRocket cfg forward s).y (cfg.ROCKET_SIZE * 0.5) 0 0 cfg.SUN_COLLISION_RADIUS
      · rw [sunChecked_of_collision cfg _ hsuncol,
          foldl_handlePlanet_dead cfg _ _ rfl]
        simp [hlanded1]
      · rw [sunChecked_of_no_collision cfg _ hsuncol]
        rcases hsep with hnone | ⟨l1, pl, l2, hplseq, hothers⟩
        · rw [foldl_handlePlanet_no_collision cfg _ _ hnone]
          simp [halive1]
        · rw [hplseq, List.foldl_append,
            foldl_handlePlanet_no_collision cfg l1 _
              (fun q hq => hothers q (List.mem_append_left _ hq)),
            List.foldl_cons]
          by_cases hcoll : collidesWith cfg (postRocket cfg forward s).x
              (postRocket cfg forward s).y pl
          · by_cases hrel : relSpeed (postRocket cfg forward s) pl < cfg.LANDING_SPEED
            · rw [handlePlanet_land cfg _ pl halive1 hcoll hrel,
                foldl_handlePlanet_no_collision cfg l2
                  { postRocket cfg forward s with
                    landed := true
                    landedPlanetIdx := pl.idx
                    landedAngle := atan2 ((postRocket cfg forward s).y - pl.y)
                      ((postRocket cfg forward s).x - pl.x)
                    vx := pl.vx
                    vy := pl.vy }
                  (fun q hq => hothers q (List.mem_append_right _ hq))]
              simp [halive1]
            · rw [handlePlanet_crash cfg _ pl halive1 hcoll hrel,
                foldl_handlePlanet_dead cfg l2 _ rfl]
              simp [hlanded1]
          · rw [handlePlanet_no_collision cfg _ pl hcoll,
              foldl_handlePlanet_no_collision cfg l2 _
                (fun q hq => hothers q (List.mem_append_right _ hq))]
            simp [halive1]
  · have ha' : s.rocket.alive = false := by
      revert ha; cases s.rocket.alive <;> simp
    rw [fixedStep_eq_dead cfg forward s ha']
    dsimp only
    exact hok

theorem respawnStep_preserves_lifecycle (cfg : Config) (s : SimState)
    (hok : ¬(s.rocket.alive = false ∧ s.rocket.landed = true)) :
    ¬((respawnStep cfg s).rocket.alive = false ∧
      (respawnStep cfg s).rocket.landed = true) := by
  unfold respawnStep respawnCommand
  dsimp only
  by_cases ha : s.rocket.alive = true
  · rw [if_pos ha]
    exact hok
  · rw [if_neg ha]
    unfold respawnRocket
    dsimp only
    simp

/-- C6 as amended: with `Flying = alive ∧ ¬landed`, `Landed = alive ∧
landed`, `Destroyed = ¬alive`, every reachable state is in exactly one
lifecycle state; and along runs in which at most one planet overlaps the
rocket in each fixed step (`ReachSep` — always the case in the shipped
levels, whose planets never meet), no reachable state has the rocket
simultaneously not alive and flagged landed.  Without that restriction the
flag pair `alive = false ∧ landed = true` *is* reachable: see the
counterexample, where one step lands on one planet and crashes on the next
without clearing `landed`. -/
theorem lifecycle_states_exclusive (cfg : Config) (s : SimState) (h : ReachSep cfg s) :
    ((s.rocket.alive = true ∧ s.rocket.landed = false) ∨
     (s.rocket.alive = true ∧ s.rocket.landed = true) ∨
     s.rocket.alive = false) ∧
    ¬(s.rocket.alive = false ∧ s.rocket.landed = true) := by
  have hinv : ¬(s.rocket.alive = false ∧ s.rocket.landed = true) := by
    induction h with
    | init => simp [initState]
    | step s forward hprev hsep ih =>
      exact fixedStep_preserves_lifecycle cfg forward s hsep ih
    | rotate s leftKey rightKey frameDt hprev ih =>
      rw [(rotateInput_lifecycle cfg leftKey rightKey frameDt s).1,
        (rotateInput_lifecycle cfg leftKey rightKey frameDt s).2]
      exact ih
    | respawn s hprev ih =>
      exact respawnStep_preserves_lifecycle cfg s ih
  refine ⟨?_, hinv⟩
  cases ha : s.rocket.alive <;> cases hl : s.rocket.landed <;> simp

/-- Level configuration of the reachable land-then-crash state: two planet
presets whose discs both reach the rocket's start position after one step
(the second one closes in at speed 360). -/
noncomputable def c6cfg : Config :=
  { G := 0, SUN_MASS := 0, ROCKET_MASS := 1, ROCKET_THRUST := 0
    ROCKET_ROTATION_SPEED := 0, LANDING_SPEED := 10, SUN_COLLISION_RADIUS := 1
    ROCKET_SIZE := 1, ROCKET_PLANET_ORBIT_RADIUS := 5
    PLANETS :=
      [ { mass := 0, radius := 6, orbitalRadius := 100
          initialVelocity := some 0, collisionRadius := some 6 },
        { mass := 0, radius := 5, orbitalRadius := 109
          initialVelocity := some 360, collisionRadius := some 5 } ] }

noncomputable def c6p0 : Planet :=
  { idx := 0, mass := 0, radius := 6, collisionRadius := 6
    x := 100, y := 0, vx := 0, vy := 0 }

noncomputable def c6p1 : Planet :=
  { idx := 1, mass := 0, radius := 5, collisionRadius := 5
    x := 109, y := 0, vx := 0, vy := 360 }

noncomputable def c6rocket : Rocket :=
  { x := 105, y := 0, vx := 0, vy := 0, angle := π / 2
    thrusting := false, alive := true, landed := false
    landedAngle := 0, landedPlanetIdx := 0 }

theorem c6initState : initState c6cfg = { planets := [c6p0, c6p1], rocket := c6rocket } := by
  unfold initState c6cfg initPlanet
  simp only [List.mapIdx_cons, List.mapIdx_nil, Option.getD_some, List.getD_cons_zero]
  unfold c6p0 c6p1 c6rocket
  norm_num

theorem c6p0_step : planetStep c6cfg c6p0 = c6p0 := by
  unfold planetStep c6cfg c6p0
  rw [gravitationalForce_zero_G]
  dsimp only
  rw [integrate_zero_accel]
  norm_num

/-- The fast second planet after one step: it has moved up by 3. -/
noncomputable def c6p1P : Planet :=
  { idx := 1, mass := 0, radius := 5, collisionRadius := 5
    x := 109, y := 3, vx := 0, vy := 360 }

theorem c6p1_step : planetStep c6cfg c6p1 = c6p1P := by
  unfold planetStep c6cfg c6p1
  rw [gravitationalForce_zero_G]
  dsimp only
  rw [integrate]
  unfold FIXED_DT c6p1P
  norm_num

noncomputable def c6state : SimState := { planets := [c6p0, c6p1], rocket := c6rocket }

theorem c6postRocket : postRocket c6cfg false c6state = c6rocket := by
  unfold postRocket
  show rocketIntegrated c6cfg false (List.map (planetStep c6cfg) [c6p0, c6p1]) c6rocket =
    c6rocket
  rw [List.map_cons, List.map_cons, List.map_nil, c6p0_step, c6p1_step]
  unfold rocketIntegrated rocketGravity
  dsimp only [c6cfg, c6rocket, c6p0, c6p1P]
  rw [List.foldl_cons, List.foldl_cons, List.foldl_nil,
    gravitationalForce_zero_G, gravitationalForce_zero_G, gravitationalForce_zero_G]
  rw [integrate]
  unfold FIXED_DT
  norm_num

theorem c6sun : ¬ checkCollision c6rocket.x c6rocket.y (c6cfg.ROCKET_SIZE * 0.5) 0 0
    c6cfg.SUN_COLLISION_RADIUS := by
  dsimp only [c6cfg, c6rocket]
  rw [checkCollision_iff 105 0 (1 * 0.5) 0 0 1 105 (by norm_num) (by norm_num)]
  norm_num

theorem c6coll0 : collidesWith c6cfg c6rocket.x c6rocket.y c6p0 := by
  unfold collidesWith
  dsimp only [c6cfg, c6rocket, c6p0]
  rw [checkCollision_iff 105 0 (1 * 0.5) 100 0 6 5 (by norm_num) (by norm_num)]
  norm_num

theorem c6rel0 : relSpeed c6rocket c6p0 = 0 :=
  relSpeed_eval c6rocket c6p0 0 (by norm_num)
    (by dsimp only [c6rocket, c6p0]; norm_num)

/-- The rocket right after landing on the first planet in the step. -/
noncomputable def c6landed : Rocket :=
  { x := 105, y := 0, vx := 0, vy := 0, angle := π / 2
    thrusting := false, alive := true, landed := true
    landedAngle := atan2 0 5, landedPlanetIdx := 0 }

theorem c6handle0 : handlePlanet c6cfg c6rocket c6p0 = c6landed := by
  rw [handlePlanet_land c6cfg c6rocket c6p0 rfl c6coll0 (by rw [c6rel0]; norm_num [c6cfg])]
  dsimp only [c6rocket, c6p0, c6landed]
  norm_num

theorem c6coll1 : collidesWith c6cfg c6landed.x c6landed.y c6p1P := by
  unfold collidesWith
  dsimp only [c6cfg, c6landed, c6p1P]
  rw [checkCollision_iff 105 0 (1 * 0.5) 109 3 5 5 (by norm_num) (by norm_num)]
  norm_num

theorem c6rel1 : relSpeed c6landed c6p1P = 360 :=
  relSpeed_eval c6landed c6p1P 360 (by norm_num)
    (by dsimp only [c6landed, c6p1P]; norm_num)

theorem c6handle1 : handlePlanet c6cfg c6landed c6p1P = { c6landed with alive := false } := by
  rw [handlePlanet_crash c6cfg c6landed c6p1P rfl c6coll1 (by rw [c6rel1]; norm_num [c6cfg])]

/-- C6 fails on the code in general: from the very start of this level, one
fixed step lands the rocket on the first planet and then crashes it on the
second — and the crash branch does not clear the `landed` flag, so the
reachable post-step state has the rocket simultaneously not alive and
flagged landed, which the claim rules out. -/
theorem dead_and_landed_reachable :
    Reach c6cfg (fixedStep c6cfg false (initState c6cfg)) ∧
    (fixedStep c6cfg false (initState c6cfg)).rocket.alive = false ∧
    (fixedStep c6cfg false (initState c6cfg)).rocket.landed = true := by
  refine ⟨Reach.step _ false Reach.init, ?_⟩
  have hstep : (fixedStep c6cfg false (initState c6cfg)).rocket =
      [c6p0, c6p1P].foldl (handlePlanet c6cfg) c6rocket := by
    rw [c6initState]
    rw [show ({ planets := [c6p0, c6p1], rocket := c6rocket } : SimState) = c6state from rfl]
    rw [fixedStep_eq_flying c6cfg false c6state rfl rfl]
    dsimp only
    unfold flyingStep
    rw [show rocketIntegrated c6cfg false (c6state.planets.map (planetStep c6cfg))
        c6state.rocket = postRocket c6cfg false c6state from rfl]
    rw [c6postRocket, sunChecked_of_no_collision c6cfg c6rocket c6sun]
    show List.foldl (handlePlanet c6cfg) c6rocket (List.map (planetStep c6cfg) [c6p0, c6p1]) = _
    rw [List.map_cons, List.map_cons, List.map_nil, c6p0_step, c6p1_step]
  rw [hstep, List.foldl_cons, c6handle0, List.foldl_cons, c6handle1, List.foldl_nil]
  exact ⟨rfl, rfl⟩

/-- Witness for `lifecycle_states_exclusive` at the initial state of the
counterexample level (reachable with zero steps). -/
theorem lifecycle_states_exclusive_witness :
    ¬((initState c6cfg).rocket.alive = false ∧ (initState c6cfg).rocket.landed = true) :=
  (lifecycle_states_exclusive c6cfg (initState c6cfg) ReachSep.init).2
